import Mathlib

/-!
Shallow embedding of the ray-based intersection, camera and rendering core of
the opengl-3d-dream repository (src/math/Vector3.h, src/core/Ray.h,
src/core/RayIntersection.cpp, src/core/Camera.cpp, src/core/Model.cpp,
src/rendering/SoftwareRenderer.cpp).  C++ `float` values are modelled as real
numbers; every numeric literal of the source is kept verbatim.  Logging calls
are ignored (they do not affect state), out-parameters become extra components
of the returned tuple, and member functions become functions taking the object
as an explicit argument and, when they mutate, returning the updated object.
-/

noncomputable section

set_option maxHeartbeats 1000000

namespace Dream

/-- Vector3 from src/math/Vector3.h: an (x,y,z) triple of floats. -/
structure Vector3 where
  x : ℝ
  y : ℝ
  z : ℝ
deriving DecidableEq

namespace Vector3

/-- Vector3::operator+ -/
def add (a b : Vector3) : Vector3 := ⟨a.x + b.x, a.y + b.y, a.z + b.z⟩

/-- Vector3::operator- (binary) -/
def sub (a b : Vector3) : Vector3 := ⟨a.x - b.x, a.y - b.y, a.z - b.z⟩

/-- Vector3::operator* (scalar) -/
def smul (a : Vector3) (s : ℝ) : Vector3 := ⟨a.x * s, a.y * s, a.z * s⟩

/-- Vector3::operator/ (scalar) -/
def sdiv (a : Vector3) (s : ℝ) : Vector3 := ⟨a.x / s, a.y / s, a.z / s⟩

/-- Vector3::operator- (unary) -/
def neg (a : Vector3) : Vector3 := ⟨-a.x, -a.y, -a.z⟩

instance : Add Vector3 := ⟨add⟩
instance : Sub Vector3 := ⟨sub⟩
instance : Neg Vector3 := ⟨neg⟩

/-- Vector3::dot -/
def dot (a b : Vector3) : ℝ := a.x * b.x + a.y * b.y + a.z * b.z

/-- Vector3::cross -/
def cross (a b : Vector3) : Vector3 :=
  ⟨a.y * b.z - a.z * b.y, a.z * b.x - a.x * b.z, a.x * b.y - a.y * b.x⟩

/-- Vector3::lengthSquared -/
def lengthSquared (a : Vector3) : ℝ := a.x * a.x + a.y * a.y + a.z * a.z

/-- Vector3::length -/
def length (a : Vector3) : ℝ := Real.sqrt (a.x * a.x + a.y * a.y + a.z * a.z)

/-- Vector3::normalized: returns the zero vector when the length is below 1e-6. -/
def normalized (a : Vector3) : Vector3 :=
  if a.length < 1e-6 then ⟨0, 0, 0⟩ else a.sdiv a.length

/-- Vector3::reflect -/
def reflect (incident normal : Vector3) : Vector3 :=
  incident - normal.smul (2.0 * dot incident normal)

/-- Vector3::lerp -/
def lerp (a b : Vector3) (t : ℝ) : Vector3 := a + (b - a).smul t

/-- Vector3::ZERO -/
def zero : Vector3 := ⟨0, 0, 0⟩

end Vector3

/-- Ray from src/core/Ray.h: origin plus direction.  The two-argument C++
constructor normalizes the direction; `mkRay` mirrors it. -/
structure Ray where
  origin : Vector3
  direction : Vector3
deriving DecidableEq

/-- The Ray(origin, direction) constructor: stores the normalized direction. -/
def mkRay (origin direction : Vector3) : Ray := ⟨origin, direction.normalized⟩

/-- TriangleHit result record from src/core/Ray.h with its default field values. -/
structure TriangleHit where
  hit : Bool := false
  distance : ℝ := 0
  point : Vector3 := Vector3.zero
  normal : Vector3 := Vector3.zero
  isFrontFace : Bool := true
deriving DecidableEq

/-- VertexHit result record from src/core/Ray.h with its default field values. -/
structure VertexHit where
  hit : Bool := false
  distance : ℝ := 0
  point : Vector3 := Vector3.zero
  vertexIndex : ℤ := -1
deriving DecidableEq

/-- EdgeHit result record from src/core/Ray.h with its default field values. -/
structure EdgeHit where
  hit : Bool := false
  distance : ℝ := 0
  point : Vector3 := Vector3.zero
  edgeIndex : ℤ := -1
  edgeParameter : ℝ := 0
deriving DecidableEq

/-- Line record from src/core/Ray.h (start, end, color, thickness). -/
structure Line where
  start : Vector3
  stop : Vector3
  color : Vector3
  thickness : ℝ
deriving DecidableEq

/-- LineHit result record from src/core/Ray.h with its default field values. -/
structure LineHit where
  hit : Bool := false
  distance : ℝ := 0
  point : Vector3 := Vector3.zero
  lineIndex : ℤ := -1
  lineParameter : ℝ := 0
deriving DecidableEq

/-- std::numeric_limits of float, ::max(): the largest finite float. -/
def FLOAT_MAX : ℝ := 340282346638528859811704183484516925440

/-- std::clamp(v, lo, hi) as used throughout RayIntersection.cpp. -/
def clampR (v lo hi : ℝ) : ℝ := if v < lo then lo else if hi < v then hi else v

namespace RayIntersection

/-- RayIntersection::isPointInsideTriangle: three-edge left-of test, a point
exactly on an edge (dot = 0) counts as inside. -/
def isPointInsideTriangle (point v0 v1 v2 normal : Vector3) : Bool :=
  let edge1 := v1 - v0
  let toPoint1 := point - v0
  let cross1 := Vector3.cross edge1 toPoint1
  if Vector3.dot cross1 normal < 0 then false
  else
    let edge2 := v2 - v1
    let toPoint2 := point - v1
    let cross2 := Vector3.cross edge2 toPoint2
    if Vector3.dot cross2 normal < 0 then false
    else
      let edge3 := v0 - v2
      let toPoint3 := point - v2
      let cross3 := Vector3.cross edge3 toPoint3
      if Vector3.dot cross3 normal < 0 then false
      else true

/-- RayIntersection::intersectTriangle (src/core/RayIntersection.cpp lines 62-105). -/
def intersectTriangle (ray : Ray) (v0 v1 v2 : Vector3) : TriangleHit :=
  let edge1 := v1 - v0
  let edge2 := v2 - v0
  let normal := (Vector3.cross edge1 edge2).normalized
  let denom := Vector3.dot normal ray.direction
  let isFrontFace : Bool := decide (denom < 0)
  if |denom| < 1e-6 then {} -- ray parallel to triangle: default (miss) result
  else
    let toPlane := v0 - ray.origin
    let t := Vector3.dot toPlane normal / denom
    if t < 0 then {} -- intersection behind ray origin
    else
      let point := ray.origin + ray.direction.smul t
      if ¬ isPointInsideTriangle point v0 v1 v2 normal then {}
      else
        { hit := true, distance := t, point := point,
          normal := if isFrontFace then normal else -normal,
          isFrontFace := isFrontFace }

/-- RayIntersection::rayPointDistance.  The C++ function returns the distance
and writes the (clamped) ray parameter through an out-parameter; here the
result is the pair (distance, rayParameter). -/
def rayPointDistance (ray : Ray) (point : Vector3) : ℝ × ℝ :=
  let toPoint := point - ray.origin
  let rayParameter := max (Vector3.dot toPoint ray.direction) 0
  let closestOnRay := ray.origin + ray.direction.smul rayParameter
  ((point - closestOnRay).length, rayParameter)

/-- RayIntersection::intersectVertex. -/
def intersectVertex (ray : Ray) (vertex : Vector3) (threshold : ℝ)
    (vertexIndex : ℤ) : VertexHit :=
  let d := rayPointDistance ray vertex
  if d.1 ≤ threshold then
    { hit := true, distance := d.2, point := vertex, vertexIndex := vertexIndex }
  else {}

/-- RayIntersection::rayEdgeDistance.  The C++ function returns the distance
and writes rayParameter and edgeParameter through out-parameters; here the
result is (distance, rayParameter, edgeParameter).  In the degenerate
zero-length-edge branch the C++ code leaves edgeParameter uninitialized; it is
modelled as 0 there and no theorem depends on it. -/
def rayEdgeDistance (ray : Ray) (edgeStart edgeEnd : Vector3) : ℝ × ℝ × ℝ :=
  let P0 := ray.origin
  let d := ray.direction
  let A := edgeStart
  let B := edgeEnd
  let AB := B - A
  let edgeLengthSq := AB.lengthSquared
  if edgeLengthSq < 1e-6 then
    let r := rayPointDistance ray edgeStart
    (r.1, r.2, 0)
  else
    let P0A := A - P0
    let a := Vector3.dot d d
    let b := Vector3.dot d AB
    let c := Vector3.dot AB AB
    let f := Vector3.dot d P0A
    let e := Vector3.dot AB P0A
    let denom := a * c - b * b
    if |denom| < 1e-6 then
      -- parallel lines: closest point on the edge to the ray origin
      let edgeParameter := clampR (-e / c) 0 1
      let closestOnEdge := A + AB.smul edgeParameter
      let P0ToClosest := closestOnEdge - P0
      let rayParameter := max (Vector3.dot P0ToClosest d) 0
      let closestOnRay := P0 + d.smul rayParameter
      ((closestOnRay - closestOnEdge).length, rayParameter, edgeParameter)
    else
      let s := (b * e - c * f) / denom
      let t := (a * e - b * f) / denom
      let rayParameter0 := max s 0
      let edgeParameter0 := clampR t 0 1
      -- if the edge parameter was clamped, recompute the ray parameter
      let rayParameter1 :=
        if t ≠ edgeParameter0 then
          let clampedEdgePoint := A + AB.smul edgeParameter0
          let P0ToClampedEdge := clampedEdgePoint - P0
          max (Vector3.dot P0ToClampedEdge d) 0
        else rayParameter0
      -- if the ray parameter was clamped, recompute the edge parameter
      let edgeParameter1 :=
        if s ≠ rayParameter1 then
          let clampedRayPoint := P0 + d.smul rayParameter1
          let AToClampedRay := clampedRayPoint - A
          clampR (Vector3.dot AToClampedRay AB / edgeLengthSq) 0 1
        else edgeParameter0
      let closestOnRay := P0 + d.smul rayParameter1
      let closestOnEdge := A + AB.smul edgeParameter1
      ((closestOnRay - closestOnEdge).length, rayParameter1, edgeParameter1)

/-- RayIntersection::intersectEdge (debug logging omitted).  The fields
distance, point, edgeIndex and edgeParameter are set whether or not the
threshold test passes, exactly as in the source. -/
def intersectEdge (ray : Ray) (edgeStart edgeEnd : Vector3) (threshold : ℝ)
    (edgeIndex : ℤ) : EdgeHit :=
  let r := rayEdgeDistance ray edgeStart edgeEnd
  { hit := decide (r.1 ≤ threshold),
    distance := r.2.1,
    point := edgeStart + (edgeEnd - edgeStart).smul r.2.2,
    edgeIndex := edgeIndex,
    edgeParameter := r.2.2 }

end RayIntersection

namespace RayIntersection

/-- The projectToScreen lambda shared by intersectEdgeScreenSpace and
intersectLineScreenSpace: a point whose forward depth is at most 0.001 is
behind the camera and is mapped to the sentinel (0, 0, -1); otherwise the
point is projected onto the screen plane at forward depth 1. -/
def projectToScreen (cameraPos forward right up point : Vector3) : Vector3 :=
  let toPoint := point - cameraPos
  let z := Vector3.dot toPoint forward
  if z ≤ 0.001 then ⟨0, 0, -1⟩
  else
    let x := Vector3.dot toPoint right
    let y := Vector3.dot toPoint up
    ⟨x / z, y / z, z⟩

/-- RayIntersection::intersectVertexScreenSpace (src/core/RayIntersection.cpp
lines 368-426).  The fov and aspectRatio parameters are accepted and unused,
exactly as in the source. -/
def intersectVertexScreenSpace (ray : Ray) (vertex : Vector3) (threshold : ℝ)
    (vertexIndex : ℤ) (cameraPos cameraTarget cameraUp : Vector3)
    (fov aspect : ℝ) : VertexHit :=
  let forward := (cameraTarget - cameraPos).normalized
  let right := (Vector3.cross forward cameraUp).normalized
  let up := Vector3.cross right forward
  let toVertex := vertex - cameraPos
  let z := Vector3.dot toVertex forward
  if z ≤ 0.001 then {} -- behind camera
  else
    let x := Vector3.dot toVertex right
    let y := Vector3.dot toVertex up
    let screenX := x / z
    let screenY := y / z
    let rayRelative := ray.direction - forward.smul (Vector3.dot ray.direction forward)
    let rayX := Vector3.dot rayRelative right
    let rayY := Vector3.dot rayRelative up
    let rayZ := Vector3.dot ray.direction forward
    let rayScreenX := rayX / rayZ
    let rayScreenY := rayY / rayZ
    let screenDistance := (Vector3.mk (rayScreenX - screenX) (rayScreenY - screenY) 0).length
    let rayT := Vector3.dot (vertex - ray.origin) ray.direction
    { hit := decide (screenDistance ≤ threshold),
      distance := max rayT 0,
      point := vertex,
      vertexIndex := vertexIndex }

/-- RayIntersection::intersectEdgeScreenSpace (src/core/RayIntersection.cpp
lines 255-366). -/
def intersectEdgeScreenSpace (ray : Ray) (edgeStart edgeEnd : Vector3)
    (threshold : ℝ) (edgeIndex : ℤ) (cameraPos cameraTarget cameraUp : Vector3)
    (fov aspect : ℝ) : EdgeHit :=
  let forward := (cameraTarget - cameraPos).normalized
  let right := (Vector3.cross forward cameraUp).normalized
  let up := Vector3.cross right forward
  let screenStart := projectToScreen cameraPos forward right up edgeStart
  let screenEnd := projectToScreen cameraPos forward right up edgeEnd
  if screenStart.z < 0 ∧ screenEnd.z < 0 then {} -- both endpoints behind camera
  else
    let rayRelative := ray.direction - forward.smul (Vector3.dot ray.direction forward)
    let rayX := Vector3.dot rayRelative right
    let rayY := Vector3.dot rayRelative up
    let rayZ := Vector3.dot ray.direction forward
    let rayScreenX := rayX / rayZ
    let rayScreenY := rayY / rayZ
    let edgeDir2D := Vector3.mk (screenEnd.x - screenStart.x) (screenEnd.y - screenStart.y) 0
    let edgeLength2D := edgeDir2D.length
    if edgeLength2D < 1e-6 then
      -- degenerate projected edge: treat as a point
      let distToStart := (Vector3.mk (rayScreenX - screenStart.x) (rayScreenY - screenStart.y) 0).length
      if distToStart ≤ threshold then
        { hit := true, distance := screenStart.z, point := edgeStart,
          edgeParameter := 0, edgeIndex := edgeIndex }
      else { edgeIndex := edgeIndex }
    else
      let edgeDir2Dn := edgeDir2D.sdiv edgeLength2D
      let startToRay := Vector3.mk (rayScreenX - screenStart.x) (rayScreenY - screenStart.y) 0
      let t0 := Vector3.dot startToRay edgeDir2Dn
      let t := clampR (t0 / edgeLength2D) 0 1
      let closestPoint2D := Vector3.mk (screenStart.x + t * (screenEnd.x - screenStart.x))
        (screenStart.y + t * (screenEnd.y - screenStart.y)) 0
      let screenDistance := (Vector3.mk (rayScreenX - closestPoint2D.x) (rayScreenY - closestPoint2D.y) 0).length
      let worldPoint := edgeStart + (edgeEnd - edgeStart).smul t
      let rayT := Vector3.dot (worldPoint - ray.origin) ray.direction
      { hit := decide (screenDistance ≤ threshold),
        distance := max rayT 0,
        point := worldPoint,
        edgeIndex := edgeIndex,
        edgeParameter := t }

/-- RayIntersection::intersectLineScreenSpace (src/core/RayIntersection.cpp
lines 428-541); identical to the edge variant except that the threshold is
scaled by the line thickness and the degenerate branch also computes the ray
parameter. -/
def intersectLineScreenSpace (ray : Ray) (line : Line) (threshold : ℝ)
    (lineIndex : ℤ) (cameraPos cameraTarget cameraUp : Vector3)
    (fov aspect : ℝ) : LineHit :=
  let forward := (cameraTarget - cameraPos).normalized
  let right := (Vector3.cross forward cameraUp).normalized
  let up := Vector3.cross right forward
  let screenStart := projectToScreen cameraPos forward right up line.start
  let screenEnd := projectToScreen cameraPos forward right up line.stop
  if screenStart.z < 0 ∧ screenEnd.z < 0 then {} -- both endpoints behind camera
  else
    let rayRelative := ray.direction - forward.smul (Vector3.dot ray.direction forward)
    let rayX := Vector3.dot rayRelative right
    let rayY := Vector3.dot rayRelative up
    let rayZ := Vector3.dot ray.direction forward
    let rayScreenX := rayX / rayZ
    let rayScreenY := rayY / rayZ
    let lineDir2D := Vector3.mk (screenEnd.x - screenStart.x) (screenEnd.y - screenStart.y) 0
    let lineLength2D := lineDir2D.length
    if lineLength2D < 1e-6 then
      let distToStart := (Vector3.mk (rayScreenX - screenStart.x) (rayScreenY - screenStart.y) 0).length
      if distToStart ≤ threshold * line.thickness then
        let rayT := Vector3.dot (line.start - ray.origin) ray.direction
        { hit := true, distance := max rayT 0, point := line.start,
          lineParameter := 0, lineIndex := lineIndex }
      else { lineIndex := lineIndex }
    else
      let lineDir2Dn := lineDir2D.sdiv lineLength2D
      let startToRay := Vector3.mk (rayScreenX - screenStart.x) (rayScreenY - screenStart.y) 0
      let t0 := Vector3.dot startToRay lineDir2Dn
      let t := clampR (t0 / lineLength2D) 0 1
      let closestPoint2D := Vector3.mk (screenStart.x + t * (screenEnd.x - screenStart.x))
        (screenStart.y + t * (screenEnd.y - screenStart.y)) 0
      let screenDistance := (Vector3.mk (rayScreenX - closestPoint2D.x) (rayScreenY - closestPoint2D.y) 0).length
      let worldPoint := line.start + (line.stop - line.start).smul t
      let rayT := Vector3.dot (worldPoint - ray.origin) ray.direction
      { hit := decide (screenDistance ≤ threshold * line.thickness),
        distance := max rayT 0,
        point := worldPoint,
        lineIndex := lineIndex,
        lineParameter := t }

end RayIntersection

/-- Vertex record from src/core/Model.h: position plus a normal that defaults
to (0,0,1). -/
structure Vertex where
  position : Vector3
  normal : Vector3 := ⟨0, 0, 1⟩
deriving DecidableEq

/-- Face record from src/core/Model.h: three vertex indices.  The C++ indices
are ints compared against the unsigned vertex count, so a negative index also
fails the validity comparison; natural numbers with a < count check capture
exactly the indices that pass it. -/
structure Face where
  v1 : ℕ
  v2 : ℕ
  v3 : ℕ
deriving DecidableEq

/-- Edge record from src/core/Model.h: two vertex indices. -/
structure Edge where
  v1 : ℕ
  v2 : ℕ
deriving DecidableEq

/-- The Model state relevant to intersection and selection: the mesh arrays
and the single selected-vertex slot (-1 when nothing is selected, as set by
the Model constructor). -/
structure Model where
  vertices : List Vertex
  faces : List Face
  edges : List Edge
  selectedVertexIndex : ℤ := -1
deriving DecidableEq

namespace RayIntersection

/-- RayIntersection::isVertexVisible (src/core/RayIntersection.cpp lines
565-610): occluded when some face not containing the vertex intersects the
camera-to-vertex ray closer than the vertex by more than 0.05. -/
def isVertexVisible (cameraPos vertex : Vector3) (model : Model) : Bool :=
  let direction := (vertex - cameraPos).normalized
  let targetDistance := (vertex - cameraPos).length
  let visibilityRay : Ray := ⟨cameraPos, direction⟩
  model.faces.all fun face =>
    if face.v1 ≥ model.vertices.length ∨ face.v2 ≥ model.vertices.length ∨
        face.v3 ≥ model.vertices.length then true -- skip invalid faces
    else
      let v0 := (model.vertices.getD face.v1 {position := Vector3.zero}).position
      let v1 := (model.vertices.getD face.v2 {position := Vector3.zero}).position
      let v2 := (model.vertices.getD face.v3 {position := Vector3.zero}).position
      if (v0 - vertex).length < 0.001 ∨ (v1 - vertex).length < 0.001 ∨
          (v2 - vertex).length < 0.001 then true -- face contains the target vertex
      else
        let h := intersectTriangle visibilityRay v0 v1 v2
        ¬ (h.hit ∧ h.distance < targetDistance - 0.05)

end RayIntersection

/-- RaycastResultType enum from src/core/Ray.h. -/
inductive RaycastResultType where
  | NONE
  | VERTEX
  | EDGE
  | FACE
  | LINE
deriving DecidableEq

/-- RaycastResult record from src/core/Ray.h with its default field values. -/
structure RaycastResult where
  type : RaycastResultType := RaycastResultType.NONE
  distance : ℝ := FLOAT_MAX
  point : Vector3 := Vector3.zero
  elementIndex : ℤ := -1
  triangleHit : TriangleHit := {}
  vertexHit : VertexHit := {}
  edgeHit : EdgeHit := {}
  lineHit : LineHit := {}
deriving DecidableEq

namespace RayIntersection

/-- One iteration of the vertex loop of findClosestIntersection: the state is
the pair (closestDistance, result). -/
def vertexScanStep (ray : Ray) (vertexThreshold : ℝ)
    (st : ℝ × RaycastResult) (p : ℕ × Vertex) : ℝ × RaycastResult :=
  let vertexHit := intersectVertex ray p.2.position vertexThreshold (p.1 : ℤ)
  if vertexHit.hit ∧ vertexHit.distance < st.1 then
    (vertexHit.distance,
      { st.2 with type := RaycastResultType.VERTEX,
                  distance := vertexHit.distance,
                  point := vertexHit.point,
                  elementIndex := vertexHit.vertexIndex,
                  vertexHit := vertexHit })
  else st

/-- One iteration of the edge loop of findClosestIntersection; edges with an
out-of-range vertex index are skipped. -/
def edgeScanStep (ray : Ray) (vertices : List Vertex) (edgeThreshold : ℝ)
    (st : ℝ × RaycastResult) (p : ℕ × Edge) : ℝ × RaycastResult :=
  if p.2.v1 ≥ vertices.length ∨ p.2.v2 ≥ vertices.length then st
  else
    let edgeStart := (vertices.getD p.2.v1 {position := Vector3.zero}).position
    let edgeEnd := (vertices.getD p.2.v2 {position := Vector3.zero}).position
    let edgeHit := intersectEdge ray edgeStart edgeEnd edgeThreshold (p.1 : ℤ)
    if edgeHit.hit ∧ edgeHit.distance < st.1 then
      (edgeHit.distance,
        { st.2 with type := RaycastResultType.EDGE,
                    distance := edgeHit.distance,
                    point := edgeHit.point,
                    elementIndex := edgeHit.edgeIndex,
                    edgeHit := edgeHit })
    else st

/-- One iteration of the face loop of findClosestIntersection; faces with an
out-of-range vertex index are skipped. -/
def faceScanStep (ray : Ray) (vertices : List Vertex)
    (st : ℝ × RaycastResult) (p : ℕ × Face) : ℝ × RaycastResult :=
  if p.2.v1 ≥ vertices.length ∨ p.2.v2 ≥ vertices.length ∨
      p.2.v3 ≥ vertices.length then st
  else
    let v0 := (vertices.getD p.2.v1 {position := Vector3.zero}).position
    let v1 := (vertices.getD p.2.v2 {position := Vector3.zero}).position
    let v2 := (vertices.getD p.2.v3 {position := Vector3.zero}).position
    let triangleHit := intersectTriangle ray v0 v1 v2
    if triangleHit.hit ∧ triangleHit.distance < st.1 then
      (triangleHit.distance,
        { st.2 with type := RaycastResultType.FACE,
                    distance := triangleHit.distance,
                    point := triangleHit.point,
                    elementIndex := (p.1 : ℤ),
                    triangleHit := triangleHit })
    else st

/-- RayIntersection::findClosestIntersection (src/core/RayIntersection.cpp
lines 612-693): scan vertices, then edges, then faces, keeping the strictly
nearest hit by ray parameter. -/
def findClosestIntersection (ray : Ray) (model : Model)
    (vertexThreshold edgeThreshold : ℝ) : RaycastResult :=
  let st0 : ℝ × RaycastResult := (FLOAT_MAX, {})
  let st1 := model.vertices.enum.foldl (vertexScanStep ray vertexThreshold) st0
  let st2 := model.edges.enum.foldl (edgeScanStep ray model.vertices edgeThreshold) st1
  let st3 := model.faces.enum.foldl (faceScanStep ray model.vertices) st2
  st3.2

end RayIntersection

namespace Utils

/-- Utils::PI from src/utils/Utils.h. -/
def PI : ℝ := 3.14159265359

/-- Utils::DEG_TO_RAD from src/utils/Utils.h. -/
def DEG_TO_RAD : ℝ := PI / 180.0

/-- Utils::clamp from src/utils/Utils.h (same branch structure as std::clamp). -/
def clamp (v lo hi : ℝ) : ℝ := if v < lo then lo else if hi < v then hi else v

end Utils

/-- Camera state from src/core/Camera.h: the authoritative orbit parameters.
The cached position and view and projection matrices are recomputed from
these on demand and carry no extra information, so they are not stored;
the projection parameters (fov, aspect, clipping planes) play no role in the
claims about orbit, zoom and focus and are omitted. -/
structure Camera where
  target : Vector3
  distance : ℝ
  pitch : ℝ
  yaw : ℝ
deriving DecidableEq

namespace Camera

/-- The Camera() constructor state: target (0,0,0), distance 5, pitch 0, yaw 0. -/
def init : Camera := ⟨Vector3.zero, 5.0, 0, 0⟩

/-- Camera::clampPitch: clamp to plus or minus 89 degrees. -/
def clampPitch (p : ℝ) : ℝ := clampR p (-(89.0 * Utils.DEG_TO_RAD)) (89.0 * Utils.DEG_TO_RAD)

/-- First while loop of Camera::normalizeYaw: subtract two pi while above pi. -/
def wrapDown (y : ℝ) : ℝ :=
  if Utils.PI < y then wrapDown (y - 2.0 * Utils.PI) else y
termination_by (⌈(y - Utils.PI) / (2.0 * Utils.PI)⌉).toNat
decreasing_by
  have hPI : (0:ℝ) < Utils.PI := by norm_num [Utils.PI]
  have h2 : (0:ℝ) < 2.0 * Utils.PI := by linarith
  have harg : (y - 2.0 * Utils.PI - Utils.PI) / (2.0 * Utils.PI)
      = (y - Utils.PI) / (2.0 * Utils.PI) - 1 := by
    field_simp
    ring
  have hpos : 0 < (y - Utils.PI) / (2.0 * Utils.PI) := by
    apply div_pos <;> linarith
  have hceil : 1 ≤ ⌈(y - Utils.PI) / (2.0 * Utils.PI)⌉ := by
    exact Int.ceil_pos.mpr hpos
  have : ⌈(y - 2.0 * Utils.PI - Utils.PI) / (2.0 * Utils.PI)⌉
      = ⌈(y - Utils.PI) / (2.0 * Utils.PI)⌉ - 1 := by
    rw [harg]
    exact_mod_cast Int.ceil_sub_int ((y - Utils.PI) / (2.0 * Utils.PI)) 1
  omega

/-- Second while loop of Camera::normalizeYaw: add two pi while below minus pi. -/
def wrapUp (y : ℝ) : ℝ :=
  if y < -Utils.PI then wrapUp (y + 2.0 * Utils.PI) else y
termination_by (⌈(-Utils.PI - y) / (2.0 * Utils.PI)⌉).toNat
decreasing_by
  have hPI : (0:ℝ) < Utils.PI := by norm_num [Utils.PI]
  have h2 : (0:ℝ) < 2.0 * Utils.PI := by linarith
  have harg : (-Utils.PI - (y + 2.0 * Utils.PI)) / (2.0 * Utils.PI)
      = (-Utils.PI - y) / (2.0 * Utils.PI) - 1 := by
    field_simp
    ring
  have hpos : 0 < (-Utils.PI - y) / (2.0 * Utils.PI) := by
    apply div_pos <;> linarith
  have hceil : 1 ≤ ⌈(-Utils.PI - y) / (2.0 * Utils.PI)⌉ := by
    exact Int.ceil_pos.mpr hpos
  have : ⌈(-Utils.PI - (y + 2.0 * Utils.PI)) / (2.0 * Utils.PI)⌉
      = ⌈(-Utils.PI - y) / (2.0 * Utils.PI)⌉ - 1 := by
    rw [harg]
    exact_mod_cast Int.ceil_sub_int ((-Utils.PI - y) / (2.0 * Utils.PI)) 1
  omega

/-- Camera::normalizeYaw: the two successive while loops. -/
def normalizeYaw (y : ℝ) : ℝ := wrapUp (wrapDown y)

/-- Camera::setTarget. -/
def setTarget (c : Camera) (newTarget : Vector3) : Camera := { c with target := newTarget }

/-- Camera::setDistance: floors the distance at 0.1. -/
def setDistance (c : Camera) (newDistance : ℝ) : Camera :=
  { c with distance := max 0.1 newDistance }

/-- Camera::setPitch. -/
def setPitch (c : Camera) (newPitch : ℝ) : Camera := { c with pitch := clampPitch newPitch }

/-- Camera::setYaw. -/
def setYaw (c : Camera) (newYaw : ℝ) : Camera := { c with yaw := normalizeYaw newYaw }

/-- Camera::orbit: add the deltas, then clamp pitch and normalize yaw. -/
def orbit (c : Camera) (deltaPitch deltaYaw : ℝ) : Camera :=
  { c with pitch := clampPitch (c.pitch + deltaPitch),
           yaw := normalizeYaw (c.yaw + deltaYaw) }

/-- Camera::zoom: multiply the distance by the factor, floored at 0.1. -/
def zoom (c : Camera) (factor : ℝ) : Camera :=
  { c with distance := max 0.1 (c.distance * factor) }

/-- Camera::setFrontView. -/
def setFrontView (c : Camera) : Camera := { c with pitch := 0, yaw := 0 }

/-- Camera::setRightView. -/
def setRightView (c : Camera) : Camera :=
  { c with pitch := 0, yaw := 90.0 * Utils.DEG_TO_RAD }

/-- Camera::setTopView. -/
def setTopView (c : Camera) : Camera :=
  { c with pitch := -(89.0 * Utils.DEG_TO_RAD), yaw := 0 }

/-- Camera::setIsometricView. -/
def setIsometricView (c : Camera) : Camera :=
  { c with pitch := -(30.0 * Utils.DEG_TO_RAD), yaw := 45.0 * Utils.DEG_TO_RAD }

/-- Camera::focusOnPoint: relocate the target and set the distance to the
caller-given margin, with no lower bound. -/
def focusOnPoint (c : Camera) (point : Vector3) (margin : ℝ) : Camera :=
  { c with target := point, distance := margin }

/-- Camera::getPosition after Camera::updatePosition: the position derived
from the spherical orbit parameters around the target. -/
def getPosition (c : Camera) : Vector3 :=
  c.target + ⟨c.distance * Real.cos c.pitch * Real.sin c.yaw,
              c.distance * Real.cos c.pitch * Real.cos c.yaw,
              c.distance * Real.sin c.pitch⟩

/-- The camera states reachable through the public mutating interface,
starting from the constructor state. -/
inductive Reachable : Camera → Prop where
  | init : Reachable init
  | setTarget {c} (t : Vector3) : Reachable c → Reachable (setTarget c t)
  | setDistance {c} (d : ℝ) : Reachable c → Reachable (setDistance c d)
  | setPitch {c} (p : ℝ) : Reachable c → Reachable (setPitch c p)
  | setYaw {c} (y : ℝ) : Reachable c → Reachable (setYaw c y)
  | orbit {c} (dp dy : ℝ) : Reachable c → Reachable (orbit c dp dy)
  | zoom {c} (f : ℝ) : Reachable c → Reachable (zoom c f)
  | setFrontView {c} : Reachable c → Reachable (setFrontView c)
  | setRightView {c} : Reachable c → Reachable (setRightView c)
  | setTopView {c} : Reachable c → Reachable (setTopView c)
  | setIsometricView {c} : Reachable c → Reachable (setIsometricView c)
  | focusOnPoint {c} (p : Vector3) (m : ℝ) : Reachable c → Reachable (focusOnPoint c p m)

end Camera

namespace Model

/-- Model::isVertexIndexValid. -/
def isVertexIndexValid (m : Model) (index : ℤ) : Bool :=
  decide (0 ≤ index ∧ index < (m.vertices.length : ℤ))

/-- Model::hasSelection.  Its body is inline in a header revision not present
under src/; modelled from the spec wording ("a vertex is already selected")
and from Model::clearSelection, which tests selectedVertexIndex at least 0. -/
def hasSelection (m : Model) : Bool := decide (0 ≤ m.selectedVertexIndex)

/-- Model::setSelectedVertex: stores the index when valid, otherwise only
logs an error and leaves the state unchanged. -/
def setSelectedVertex (m : Model) (index : ℤ) : Model :=
  if m.isVertexIndexValid index then { m with selectedVertexIndex := index } else m

/-- Model::clearSelection. -/
def clearSelection (m : Model) : Model :=
  if 0 ≤ m.selectedVertexIndex then { m with selectedVertexIndex := -1 } else m

/-- The vertex loop of Model::selectVertex: the state is the pair
(closestVertexIndex, closestDistance), starting from (-1, FLOAT_MAX);
occluded vertices are skipped. -/
def selectScanStep (ray : Ray) (cameraPos : Vector3) (m : Model)
    (dynamicThreshold : ℝ) (st : ℤ × ℝ) (p : ℕ × Vertex) : ℤ × ℝ :=
  if ¬ RayIntersection.isVertexVisible cameraPos p.2.position m then st
  else
    let hit := RayIntersection.intersectVertex ray p.2.position dynamicThreshold (p.1 : ℤ)
    if hit.hit ∧ hit.distance < st.2 then (hit.vertexIndex, hit.distance) else st

/-- Model::selectVertex (src/core/Model.cpp lines 510-558).  The camera is
used only through getDistance and getPosition.  Returns the C++ boolean
result paired with the updated model. -/
def selectVertex (m : Model) (ray : Ray) (camera : Camera)
    (baseThreshold : ℝ) : Bool × Model :=
  let cameraDistance := camera.distance
  let dynamicThreshold := baseThreshold * cameraDistance * 0.1
  let scan := m.vertices.enum.foldl
    (selectScanStep ray camera.getPosition m dynamicThreshold) (-1, FLOAT_MAX)
  if scan.1 = -1 then
    let deselectionThreshold := dynamicThreshold * 2.0
    if m.hasSelection then
      let selectedPos := (m.vertices.getD m.selectedVertexIndex.toNat
        {position := Vector3.zero}).position
      let distToSelected := (RayIntersection.rayPointDistance ray selectedPos).1
      if distToSelected > deselectionThreshold then (true, m.clearSelection)
      else (false, m)
    else (false, m)
  else (true, m.setSelectedVertex scan.1)

end Model

/-- Triangle record from src/rendering/SoftwareRenderer.h. -/
structure Triangle where
  v0 : Vector3
  v1 : Vector3
  v2 : Vector3
  color : Vector3
deriving DecidableEq

/-- RenderConfig from src/rendering/SoftwareRenderer.h. -/
structure RenderConfig where
  vertexDisplayRadius : ℝ := 0.02
  edgeDisplayThickness : ℝ := 0.01
  lineThickness : ℝ := 0.01
  vertexSelectionThreshold : ℝ := 0.05
  edgeSelectionThreshold : ℝ := 0.02
  rayEpsilon : ℝ := 0.001
  showVertices : Bool := true
  showEdges : Bool := true
  showFaces : Bool := true
  showCoordinateAxes : Bool := true
deriving DecidableEq

/-- ReflectionConfig from src/rendering/SoftwareRenderer.h, together with the
sun and sky fields used by SoftwareRenderer::calculateSkyboxColor. -/
structure ReflectionConfig where
  enableReflection : Bool := false
  maxReflectionDepth : ℤ := 5
  reflectionEpsilon : ℝ := 0.001
  enableLambertDiffuse : Bool := true
  lightDirection : Vector3 := (Vector3.mk 1 (-1) 1).normalized
  ambientStrength : ℝ := 0.2
  diffuseStrength : ℝ := 0.8
  frontFaceReflectionAlpha : ℝ := 0.3
  backFaceReflectionAlpha : ℝ := 0.1
  frontFaceColor : Vector3 := ⟨0.6, 0.6, 0.6⟩
  backFaceColor : Vector3 := ⟨0.4, 0.4, 0.4⟩
  enableSun : Bool := true
  sunAngularSize : ℝ := 0.1
  sunColor : Vector3 := ⟨1, 1, 0.9⟩
  skyHorizonColor : Vector3 := ⟨0.8, 0.9, 1⟩
  skyZenithColor : Vector3 := ⟨0.3, 0.5, 0.9⟩
deriving DecidableEq

/-- The SoftwareRenderer state read by castRay: the scene lists, the camera
parameters and the two configuration records (pixel buffer and resolution are
irrelevant to a single ray cast and omitted). -/
structure SoftwareRenderer where
  triangles : List Triangle
  lines : List Line
  vertices : List Vector3
  edges : List Line
  cameraPos : Vector3 := ⟨0, 0, 5⟩
  cameraTarget : Vector3 := ⟨0, 0, 0⟩
  cameraUp : Vector3 := ⟨0, 0, 1⟩
  fov : ℝ := 45.0 * 3.14159 / 180.0
  aspect : ℝ := 4.0 / 3.0
  config : RenderConfig := {}
  reflectionConfig : ReflectionConfig := {}
deriving DecidableEq

namespace SoftwareRenderer

/-- SoftwareRenderer::calculateSkyboxColor (src/rendering/SoftwareRenderer.cpp
lines 337-382): sun disc with squared falloff, else a two-factor gradient. -/
def calculateSkyboxColor (s : SoftwareRenderer) (ray : Ray) : Vector3 :=
  let rc := s.reflectionConfig
  let sunAlignment := Vector3.dot ray.direction (-rc.lightDirection)
  let angularDistance := Real.arccos (Utils.clamp sunAlignment (-1.0) 1.0)
  if rc.enableSun ∧ angularDistance < rc.sunAngularSize then
    let sunIntensity := 1.0 - angularDistance / rc.sunAngularSize
    Vector3.lerp rc.skyHorizonColor rc.sunColor (sunIntensity * sunIntensity)
  else
    let sunProximity := (Vector3.dot ray.direction (-rc.lightDirection) + 1.0) * 0.5
    let verticalFactor := ((ray.direction.z + 1.0) * 0.5) ^ (0.7 : ℝ)
    let t := sunProximity * 0.7 + verticalFactor * 0.3
    Vector3.lerp rc.skyZenithColor rc.skyHorizonColor t

/-- Vertex display loop step of SoftwareRenderer::castRay: the state is
(closestDistance, hitFound, hitColor). -/
def srVertexStep (s : SoftwareRenderer) (ray : Ray)
    (st : ℝ × Bool × Vector3) (p : ℕ × Vector3) : ℝ × Bool × Vector3 :=
  let vh := RayIntersection.intersectVertexScreenSpace ray p.2
    s.config.vertexDisplayRadius (p.1 : ℤ) s.cameraPos s.cameraTarget s.cameraUp
    s.fov s.aspect
  if vh.hit ∧ vh.distance < st.1 ∧ vh.distance > s.config.rayEpsilon then
    (vh.distance, true, ⟨1.0, 1.0, 1.0⟩)
  else st

/-- Edge display loop step of SoftwareRenderer::castRay. -/
def srEdgeStep (s : SoftwareRenderer) (ray : Ray)
    (st : ℝ × Bool × Vector3) (p : ℕ × Line) : ℝ × Bool × Vector3 :=
  let eh := RayIntersection.intersectEdgeScreenSpace ray p.2.start p.2.stop
    s.config.edgeDisplayThickness (p.1 : ℤ) s.cameraPos s.cameraTarget s.cameraUp
    s.fov s.aspect
  if eh.hit ∧ eh.distance < st.1 ∧ eh.distance > s.config.rayEpsilon then
    (eh.distance, true, ⟨0.7, 0.7, 0.7⟩)
  else st

/-- Coordinate-axis loop step of SoftwareRenderer::castRay. -/
def srLineStep (s : SoftwareRenderer) (ray : Ray)
    (st : ℝ × Bool × Vector3) (p : ℕ × Line) : ℝ × Bool × Vector3 :=
  let lh := RayIntersection.intersectLineScreenSpace ray p.2
    s.config.lineThickness (p.1 : ℤ) s.cameraPos s.cameraTarget s.cameraUp
    s.fov s.aspect
  if lh.hit ∧ lh.distance < st.1 ∧ lh.distance > s.config.rayEpsilon then
    (lh.distance, true, p.2.color)
  else st

/-- Triangle loop step of SoftwareRenderer::castRay, parameterized by the
function used to trace the reflected ray (the recursive call). -/
def srTriangleStep (s : SoftwareRenderer) (ray : Ray) (recurse : Ray → Vector3)
    (st : ℝ × Bool × Vector3) (tri : Triangle) : ℝ × Bool × Vector3 :=
  let rc := s.reflectionConfig
  let hit := RayIntersection.intersectTriangle ray tri.v0 tri.v1 tri.v2
  if hit.hit ∧ hit.distance < st.1 ∧ hit.distance > s.config.rayEpsilon then
    let baseColor := if hit.isFrontFace then rc.frontFaceColor else rc.backFaceColor
    let lambertColor :=
      if rc.enableLambertDiffuse then
        let NdotL := max 0.0 (Vector3.dot hit.normal (-rc.lightDirection))
        baseColor.smul rc.ambientStrength + (baseColor.smul NdotL).smul rc.diffuseStrength
      else baseColor
    let finalColor :=
      if rc.enableReflection then
        let reflectedDir := Vector3.reflect ray.direction hit.normal
        let offsetPoint := hit.point + hit.normal.smul rc.reflectionEpsilon
        let reflectedColor := recurse (mkRay offsetPoint reflectedDir)
        let reflectionAlpha := if hit.isFrontFace then rc.frontFaceReflectionAlpha
          else rc.backFaceReflectionAlpha
        lambertColor.smul (1.0 - reflectionAlpha) + reflectedColor.smul reflectionAlpha
      else lambertColor
    (hit.distance, true, finalColor)
  else st

/-- SoftwareRenderer::castRay (src/rendering/SoftwareRenderer.cpp lines
200-335): at or beyond the maximum reflection depth it returns the skybox
color; otherwise it scans vertices, edges, axis lines and triangles in that
order and recurses with depth + 1 for the specular bounce. -/
def castRay (s : SoftwareRenderer) (ray : Ray) (depth : ℤ) : Vector3 :=
  if h : depth ≥ s.reflectionConfig.maxReflectionDepth then calculateSkyboxColor s ray
  else
    let st0 : ℝ × Bool × Vector3 := (FLOAT_MAX, false, Vector3.zero)
    let st1 := if s.config.showVertices then s.vertices.enum.foldl (srVertexStep s ray) st0 else st0
    let st2 := if s.config.showEdges then s.edges.enum.foldl (srEdgeStep s ray) st1 else st1
    let st3 := if s.config.showCoordinateAxes then s.lines.enum.foldl (srLineStep s ray) st2 else st2
    let st4 := if s.config.showFaces then
        s.triangles.foldl (fun st tri =>
          srTriangleStep s ray (fun r => castRay s r (depth + 1)) st tri) st3
      else st3
    if st4.2.1 then st4.2.2 else calculateSkyboxColor s ray
termination_by (s.reflectionConfig.maxReflectionDepth - depth).toNat
decreasing_by
  simp only [not_le] at h
  omega

/-- Recursion-depth-counting variant of castRay: identical except that it
consumes one unit of gas per reflected bounce and returns none when the gas
runs out before the depth limit is reached.  Used to state that the recursion
of castRay is bounded by maxReflectionDepth. -/
def castRayGas (s : SoftwareRenderer) (ray : Ray) (gas : ℕ) (depth : ℤ) : Option Vector3 :=
  if depth ≥ s.reflectionConfig.maxReflectionDepth then some (calculateSkyboxColor s ray)
  else
    match gas with
    | 0 => none
    | g + 1 =>
      let st0 : ℝ × Bool × Vector3 := (FLOAT_MAX, false, Vector3.zero)
      let st1 := if s.config.showVertices then s.vertices.enum.foldl (srVertexStep s ray) st0 else st0
      let st2 := if s.config.showEdges then s.edges.enum.foldl (srEdgeStep s ray) st1 else st1
      let st3 := if s.config.showCoordinateAxes then s.lines.enum.foldl (srLineStep s ray) st2 else st2
      let st4 := if s.config.showFaces then
          s.triangles.foldl (fun st tri =>
            srTriangleStep s ray (fun r => (castRayGas s r g (depth + 1)).getD Vector3.zero) st tri) st3
        else st3
      some (if st4.2.1 then st4.2.2 else calculateSkyboxColor s ray)

end SoftwareRenderer

/-! ### Helper lemmas for evaluating the embedded operations -/

theorem Vector3.add_def (a b : Vector3) :
    a + b = ⟨a.x + b.x, a.y + b.y, a.z + b.z⟩ := rfl

theorem Vector3.sub_def (a b : Vector3) :
    a - b = ⟨a.x - b.x, a.y - b.y, a.z - b.z⟩ := rfl

theorem Vector3.neg_def (a : Vector3) : -a = ⟨-a.x, -a.y, -a.z⟩ := rfl

theorem sqrt_eq_of_sq_eq (r a : ℝ) (h0 : 0 ≤ r) (h : r * r = a) :
    Real.sqrt a = r := by
  rw [← h]
  exact Real.sqrt_mul_self h0

theorem Vector3.length_eval (a : Vector3) (r : ℝ) (h0 : 0 ≤ r)
    (h : r * r = a.x * a.x + a.y * a.y + a.z * a.z) : a.length = r :=
  sqrt_eq_of_sq_eq r _ h0 h

theorem Vector3.normalized_eval (a : Vector3) (r : ℝ) (hr : 1e-6 ≤ r)
    (h : r * r = a.x * a.x + a.y * a.y + a.z * a.z) :
    a.normalized = ⟨a.x / r, a.y / r, a.z / r⟩ := by
  have h0 : (0:ℝ) ≤ r := le_trans (by norm_num) hr
  have hl : a.length = r := Vector3.length_eval a r h0 h
  rw [Vector3.normalized, hl, if_neg (not_lt.mpr hr)]
  rfl

theorem clampR_mem (v lo hi : ℝ) (h : lo ≤ hi) :
    lo ≤ clampR v lo hi ∧ clampR v lo hi ≤ hi := by
  unfold clampR
  split
  · exact ⟨le_refl lo, h⟩
  · split
    · exact ⟨h, le_refl hi⟩
    · constructor <;> linarith [not_lt.mp (by assumption : ¬ v < lo)]

theorem clampR_one_sub (u : ℝ) : clampR (1 - u) 0 1 = 1 - clampR u 0 1 := by
  unfold clampR
  split_ifs <;> linarith

/-! ### C10: focusOnPoint applies no distance floor -/

/-- C10: Camera::focusOnPoint sets the target to the given point and the
distance to exactly the margin with no lower bound, leaving pitch and yaw
unchanged, while setDistance and zoom floor the distance at 0.1; hence a
camera distance below 0.1 is reachable through the public interface. -/
theorem C10_focusOnPoint_unfloored :
    (∀ (c : Camera) (p : Vector3) (m : ℝ),
      (c.focusOnPoint p m).target = p ∧ (c.focusOnPoint p m).distance = m ∧
      (c.focusOnPoint p m).pitch = c.pitch ∧ (c.focusOnPoint p m).yaw = c.yaw) ∧
    (∀ (c : Camera) (d : ℝ), (c.setDistance d).distance = max 0.1 d) ∧
    (∀ (c : Camera) (f : ℝ), (c.zoom f).distance = max 0.1 (c.distance * f)) ∧
    (∃ c : Camera, Camera.Reachable c ∧ c.distance < 0.1) := by
  refine ⟨fun c p m => ⟨rfl, rfl, rfl, rfl⟩, fun c d => rfl, fun c f => rfl, ?_⟩
  refine ⟨Camera.init.focusOnPoint Vector3.zero 0, ?_, by norm_num [Camera.focusOnPoint]⟩
  exact Camera.Reachable.focusOnPoint Vector3.zero 0 Camera.Reachable.init

/-! ### C4: bounds established by Camera::orbit -/

theorem wrapDown_le_pi : ∀ y : ℝ, Camera.wrapDown y ≤ Utils.PI := by
  intro y
  induction y using Camera.wrapDown.induct with
  | case1 y h ih => rw [Camera.wrapDown, if_pos h]; exact ih
  | case2 y h => rw [Camera.wrapDown, if_neg h]; exact le_of_not_lt h

theorem wrapUp_ge_neg_pi : ∀ y : ℝ, -Utils.PI ≤ Camera.wrapUp y := by
  intro y
  induction y using Camera.wrapUp.induct with
  | case1 y h ih => rw [Camera.wrapUp, if_pos h]; exact ih
  | case2 y h => rw [Camera.wrapUp, if_neg h]; exact le_of_not_lt h

theorem wrapUp_le_pi : ∀ y : ℝ, y ≤ Utils.PI → Camera.wrapUp y ≤ Utils.PI := by
  intro y
  induction y using Camera.wrapUp.induct with
  | case1 y h ih =>
    intro _
    rw [Camera.wrapUp, if_pos h]
    have hPI : (0:ℝ) < Utils.PI := by norm_num [Utils.PI]
    exact ih (by linarith)
  | case2 y h =>
    intro hy
    rw [Camera.wrapUp, if_neg h]
    exact hy

theorem normalizeYaw_mem (y : ℝ) :
    -Utils.PI ≤ Camera.normalizeYaw y ∧ Camera.normalizeYaw y ≤ Utils.PI := by
  unfold Camera.normalizeYaw
  exact ⟨wrapUp_ge_neg_pi _, wrapUp_le_pi _ (wrapDown_le_pi y)⟩

/-- C4 counterexample: orbiting by yaw delta minus pi from the constructor
state stores yaw exactly minus pi, a reachable state outside the half-open
interval claimed by the spec. -/
theorem C4_yaw_neg_pi_stored :
    (Camera.init.orbit 0 (-Utils.PI)).yaw = -Utils.PI ∧
    Camera.Reachable (Camera.init.orbit 0 (-Utils.PI)) ∧
    ¬ (-Utils.PI < (Camera.init.orbit 0 (-Utils.PI)).yaw) := by
  have hPI : (0:ℝ) < Utils.PI := by norm_num [Utils.PI]
  have hyaw : (Camera.init.orbit 0 (-Utils.PI)).yaw = -Utils.PI := by
    show Camera.normalizeYaw ((Camera.init.yaw) + -Utils.PI) = -Utils.PI
    have h0 : Camera.init.yaw + -Utils.PI = -Utils.PI := by
      simp [Camera.init]
    rw [h0]
    unfold Camera.normalizeYaw
    rw [Camera.wrapDown, if_neg (by linarith), Camera.wrapUp, if_neg (by linarith)]
  exact ⟨hyaw, Camera.Reachable.orbit 0 (-Utils.PI) Camera.Reachable.init,
    by rw [hyaw]; exact lt_irrefl _⟩

/-- C4 amended: after any Camera::orbit call, from any state, the stored yaw
lies in the closed interval from minus pi to pi (the endpoint minus pi is
reachable, since both while-loop guards of normalizeYaw are strict) and the
stored pitch lies within plus or minus 89 degrees in radians. -/
theorem C4_orbit_bounds (c : Camera) (dp dy : ℝ) :
    -Utils.PI ≤ (c.orbit dp dy).yaw ∧ (c.orbit dp dy).yaw ≤ Utils.PI ∧
    -(89.0 * Utils.DEG_TO_RAD) ≤ (c.orbit dp dy).pitch ∧
    (c.orbit dp dy).pitch ≤ 89.0 * Utils.DEG_TO_RAD := by
  have hm := normalizeYaw_mem (c.yaw + dy)
  have hb : -(89.0 * Utils.DEG_TO_RAD) ≤ 89.0 * Utils.DEG_TO_RAD := by
    norm_num [Utils.DEG_TO_RAD, Utils.PI]
  have hp := clampR_mem (c.pitch + dp) (-(89.0 * Utils.DEG_TO_RAD))
    (89.0 * Utils.DEG_TO_RAD) hb
  exact ⟨hm.1, hm.2, hp.1, hp.2⟩

/-! ### C1: intersectTriangle characterization and scenario -/

/-- The (normalized) triangle normal computed by intersectTriangle. -/
def triNormal (v0 v1 v2 : Vector3) : Vector3 :=
  (Vector3.cross (v1 - v0) (v2 - v0)).normalized

/-- The denominator dot(normal, direction) computed by intersectTriangle. -/
def triDenom (ray : Ray) (v0 v1 v2 : Vector3) : ℝ :=
  Vector3.dot (triNormal v0 v1 v2) ray.direction

/-- The plane intersection parameter t computed by intersectTriangle. -/
def triT (ray : Ray) (v0 v1 v2 : Vector3) : ℝ :=
  Vector3.dot (v0 - ray.origin) (triNormal v0 v1 v2) / triDenom ray v0 v1 v2

/-- The plane intersection point computed by intersectTriangle. -/
def triPoint (ray : Ray) (v0 v1 v2 : Vector3) : Vector3 :=
  ray.origin + ray.direction.smul (triT ray v0 v1 v2)

theorem isPointInsideTriangle_iff (p v0 v1 v2 n : Vector3) :
    RayIntersection.isPointInsideTriangle p v0 v1 v2 n = true ↔
      (0 ≤ Vector3.dot (Vector3.cross (v1 - v0) (p - v0)) n ∧
       0 ≤ Vector3.dot (Vector3.cross (v2 - v1) (p - v1)) n ∧
       0 ≤ Vector3.dot (Vector3.cross (v0 - v2) (p - v2)) n) := by
  simp only [RayIntersection.isPointInsideTriangle]
  split_ifs with h1 h2 h3 <;>
    simp_all [not_lt, le_of_not_lt, not_le_of_lt]

theorem intersectTriangle_unfold (ray : Ray) (v0 v1 v2 : Vector3) :
    RayIntersection.intersectTriangle ray v0 v1 v2 =
      (if |triDenom ray v0 v1 v2| < 1e-6 then {}
       else if triT ray v0 v1 v2 < 0 then {}
       else if ¬ RayIntersection.isPointInsideTriangle (triPoint ray v0 v1 v2)
           v0 v1 v2 (triNormal v0 v1 v2) then {}
       else { hit := true, distance := triT ray v0 v1 v2,
              point := triPoint ray v0 v1 v2,
              normal := if decide (triDenom ray v0 v1 v2 < 0) = true
                then triNormal v0 v1 v2 else -(triNormal v0 v1 v2),
              isFrontFace := decide (triDenom ray v0 v1 v2 < 0) }) := rfl

/-- C1: intersectTriangle misses for rays parallel to the triangle plane
(absolute denominator below 1e-6) and for negative plane parameter t, and
otherwise hits exactly when the plane point passes the three-edge left-of test
with points on an edge counting as inside; the triangle
(-1,-1,0),(1,-1,0),(0,1,0) with the ray from (0,0,1) in direction (0,0,-1)
yields hit = true, distance = 1, point = (0,0,0), front face = true. -/
theorem C1_intersectTriangle_spec :
    (∀ (ray : Ray) (v0 v1 v2 : Vector3),
      (|triDenom ray v0 v1 v2| < 1e-6 →
        RayIntersection.intersectTriangle ray v0 v1 v2 = {}) ∧
      (¬ |triDenom ray v0 v1 v2| < 1e-6 → triT ray v0 v1 v2 < 0 →
        RayIntersection.intersectTriangle ray v0 v1 v2 = {}) ∧
      (¬ |triDenom ray v0 v1 v2| < 1e-6 → ¬ triT ray v0 v1 v2 < 0 →
        (((RayIntersection.intersectTriangle ray v0 v1 v2).hit = true ↔
          (0 ≤ Vector3.dot (Vector3.cross (v1 - v0) (triPoint ray v0 v1 v2 - v0))
              (triNormal v0 v1 v2) ∧
           0 ≤ Vector3.dot (Vector3.cross (v2 - v1) (triPoint ray v0 v1 v2 - v1))
              (triNormal v0 v1 v2) ∧
           0 ≤ Vector3.dot (Vector3.cross (v0 - v2) (triPoint ray v0 v1 v2 - v2))
              (triNormal v0 v1 v2))) ∧
         ((RayIntersection.intersectTriangle ray v0 v1 v2).hit = true →
           RayIntersection.intersectTriangle ray v0 v1 v2 =
             { hit := true, distance := triT ray v0 v1 v2,
               point := triPoint ray v0 v1 v2,
               normal := if triDenom ray v0 v1 v2 < 0 then triNormal v0 v1 v2
                 else -(triNormal v0 v1 v2),
               isFrontFace := decide (triDenom ray v0 v1 v2 < 0) })))) ∧
    (RayIntersection.intersectTriangle (mkRay ⟨0,0,1⟩ ⟨0,0,-1⟩)
        ⟨-1,-1,0⟩ ⟨1,-1,0⟩ ⟨0,1,0⟩ =
      { hit := true, distance := 1, point := ⟨0,0,0⟩, normal := ⟨0,0,1⟩,
        isFrontFace := true }) := by
  constructor
  · intro ray v0 v1 v2
    rw [intersectTriangle_unfold]
    refine ⟨fun h => by rw [if_pos h], fun h ht => by rw [if_neg h, if_pos ht], ?_⟩
    intro h ht
    rw [if_neg h, if_neg ht]
    by_cases hin : RayIntersection.isPointInsideTriangle (triPoint ray v0 v1 v2)
        v0 v1 v2 (triNormal v0 v1 v2) = true
    · rw [if_neg (by simp [hin])]
      refine ⟨⟨fun _ => (isPointInsideTriangle_iff _ _ _ _ _).mp hin, fun _ => rfl⟩, ?_⟩
      intro _
      simp only [decide_eq_true_eq]
    · rw [if_pos (by simp_all)]
      constructor
      · constructor
        · intro hfalse
          simp at hfalse
        · intro hineq
          exact absurd ((isPointInsideTriangle_iff _ _ _ _ _).mpr hineq) hin
      · intro hfalse
        simp at hfalse
  · have hray : mkRay ⟨0,0,1⟩ ⟨0,0,-1⟩ = (⟨⟨0,0,1⟩, ⟨0,0,-1⟩⟩ : Ray) := by
      unfold mkRay
      rw [Vector3.normalized_eval _ 1 (by norm_num) (by norm_num)]
      norm_num
    rw [hray]
    have hcross : Vector3.cross ((⟨1,-1,0⟩ : Vector3) - ⟨-1,-1,0⟩)
        ((⟨0,1,0⟩ : Vector3) - ⟨-1,-1,0⟩) = ⟨0,0,4⟩ := by
      simp [Vector3.sub_def, Vector3.cross]
      norm_num
    have hnorm : (⟨0,0,4⟩ : Vector3).normalized = ⟨0,0,1⟩ := by
      rw [Vector3.normalized_eval _ 4 (by norm_num) (by norm_num)]
      norm_num
    simp only [RayIntersection.intersectTriangle, hcross, hnorm]
    simp only [Vector3.dot, Vector3.sub_def, Vector3.add_def, Vector3.smul,
      RayIntersection.isPointInsideTriangle, Vector3.cross]
    norm_num

theorem mkRay_scenario : mkRay ⟨0,0,1⟩ ⟨0,0,-1⟩ = (⟨⟨0,0,1⟩, ⟨0,0,-1⟩⟩ : Ray) := by
  unfold mkRay
  rw [Vector3.normalized_eval _ 1 (by norm_num) (by norm_num)]
  norm_num

theorem triNormal_scenario :
    triNormal ⟨-1,-1,0⟩ ⟨1,-1,0⟩ ⟨0,1,0⟩ = ⟨0,0,1⟩ := by
  unfold triNormal
  have hcross : Vector3.cross ((⟨1,-1,0⟩ : Vector3) - ⟨-1,-1,0⟩)
      ((⟨0,1,0⟩ : Vector3) - ⟨-1,-1,0⟩) = ⟨0,0,4⟩ := by
    simp [Vector3.sub_def, Vector3.cross]
    norm_num
  rw [hcross, Vector3.normalized_eval _ 4 (by norm_num) (by norm_num)]
  norm_num

theorem triDenom_scenario :
    triDenom (mkRay ⟨0,0,1⟩ ⟨0,0,-1⟩) ⟨-1,-1,0⟩ ⟨1,-1,0⟩ ⟨0,1,0⟩ = -1 := by
  unfold triDenom
  rw [triNormal_scenario, mkRay_scenario]
  simp [Vector3.dot]

theorem triT_scenario :
    triT (mkRay ⟨0,0,1⟩ ⟨0,0,-1⟩) ⟨-1,-1,0⟩ ⟨1,-1,0⟩ ⟨0,1,0⟩ = 1 := by
  unfold triT
  rw [triNormal_scenario, triDenom_scenario, mkRay_scenario]
  simp [Vector3.dot, Vector3.sub_def]

/-- Witness for C1: the general characterization applied at the concrete
scenario triangle and ray, with both side conditions discharged. -/
theorem C1_intersectTriangle_spec_witness :
    (¬ |triDenom (mkRay ⟨0,0,1⟩ ⟨0,0,-1⟩) ⟨-1,-1,0⟩ ⟨1,-1,0⟩ ⟨0,1,0⟩| < 1e-6) ∧
    (¬ triT (mkRay ⟨0,0,1⟩ ⟨0,0,-1⟩) ⟨-1,-1,0⟩ ⟨1,-1,0⟩ ⟨0,1,0⟩ < 0) ∧
    ((RayIntersection.intersectTriangle (mkRay ⟨0,0,1⟩ ⟨0,0,-1⟩)
        ⟨-1,-1,0⟩ ⟨1,-1,0⟩ ⟨0,1,0⟩).hit = true ↔
      (0 ≤ Vector3.dot (Vector3.cross ((⟨1,-1,0⟩ : Vector3) - ⟨-1,-1,0⟩)
          (triPoint (mkRay ⟨0,0,1⟩ ⟨0,0,-1⟩) ⟨-1,-1,0⟩ ⟨1,-1,0⟩ ⟨0,1,0⟩ - ⟨-1,-1,0⟩))
          (triNormal ⟨-1,-1,0⟩ ⟨1,-1,0⟩ ⟨0,1,0⟩) ∧
       0 ≤ Vector3.dot (Vector3.cross ((⟨0,1,0⟩ : Vector3) - ⟨1,-1,0⟩)
          (triPoint (mkRay ⟨0,0,1⟩ ⟨0,0,-1⟩) ⟨-1,-1,0⟩ ⟨1,-1,0⟩ ⟨0,1,0⟩ - ⟨1,-1,0⟩))
          (triNormal ⟨-1,-1,0⟩ ⟨1,-1,0⟩ ⟨0,1,0⟩) ∧
       0 ≤ Vector3.dot (Vector3.cross ((⟨-1,-1,0⟩ : Vector3) - ⟨0,1,0⟩)
          (triPoint (mkRay ⟨0,0,1⟩ ⟨0,0,-1⟩) ⟨-1,-1,0⟩ ⟨1,-1,0⟩ ⟨0,1,0⟩ - ⟨0,1,0⟩))
          (triNormal ⟨-1,-1,0⟩ ⟨1,-1,0⟩ ⟨0,1,0⟩))) := by
  refine ⟨by rw [triDenom_scenario]; norm_num, by rw [triT_scenario]; norm_num, ?_⟩
  exact ((C1_intersectTriangle_spec.1 (mkRay ⟨0,0,1⟩ ⟨0,0,-1⟩)
      ⟨-1,-1,0⟩ ⟨1,-1,0⟩ ⟨0,1,0⟩).2.2
    (by rw [triDenom_scenario]; norm_num)
    (by rw [triT_scenario]; norm_num)).1

/-! ### C9: rayEdgeDistance endpoint-swap behaviour -/

theorem rayPointDistance_ex1 :
    RayIntersection.rayPointDistance ⟨⟨0,0,1⟩, ⟨0,0,-1⟩⟩ ⟨0,0,0⟩ = (0, 1) := by
  simp only [RayIntersection.rayPointDistance, Vector3.sub_def, Vector3.add_def,
    Vector3.smul, Vector3.dot]
  norm_num
  rw [Vector3.length_eval _ 0 le_rfl (by norm_num)]

theorem rayPointDistance_ex2 :
    RayIntersection.rayPointDistance ⟨⟨0,0,1⟩, ⟨0,0,-1⟩⟩ ⟨0.0005,0,0⟩ = (0.0005, 1) := by
  simp only [RayIntersection.rayPointDistance, Vector3.sub_def, Vector3.add_def,
    Vector3.smul, Vector3.dot]
  norm_num
  rw [Vector3.length_eval _ 0.0005 (by norm_num) (by norm_num)]
  norm_num

/-- C9 counterexample: for the degenerate edge from (0,0,0) to (0.0005,0,0)
(squared length 2.5e-7, below the 1e-6 cutoff) and the ray from (0,0,1) in
direction (0,0,-1), rayEdgeDistance returns the ray-point distance to its
first endpoint, so swapping the endpoints changes the result from 0 to
0.0005. -/
theorem C9_swap_counterexample :
    (RayIntersection.rayEdgeDistance (mkRay ⟨0,0,1⟩ ⟨0,0,-1⟩) ⟨0,0,0⟩ ⟨0.0005,0,0⟩).1 = 0 ∧
    (RayIntersection.rayEdgeDistance (mkRay ⟨0,0,1⟩ ⟨0,0,-1⟩) ⟨0.0005,0,0⟩ ⟨0,0,0⟩).1 = 0.0005 ∧
    (RayIntersection.rayEdgeDistance (mkRay ⟨0,0,1⟩ ⟨0,0,-1⟩) ⟨0,0,0⟩ ⟨0.0005,0,0⟩).1 ≠
      (RayIntersection.rayEdgeDistance (mkRay ⟨0,0,1⟩ ⟨0,0,-1⟩) ⟨0.0005,0,0⟩ ⟨0,0,0⟩).1 := by
  rw [mkRay_scenario]
  have h1 : (RayIntersection.rayEdgeDistance ⟨⟨0,0,1⟩, ⟨0,0,-1⟩⟩ ⟨0,0,0⟩ ⟨0.0005,0,0⟩).1 = 0 := by
    simp only [RayIntersection.rayEdgeDistance]
    rw [if_pos (by simp [Vector3.sub_def, Vector3.lengthSquared]; norm_num)]
    rw [rayPointDistance_ex1]
  have h2 : (RayIntersection.rayEdgeDistance ⟨⟨0,0,1⟩, ⟨0,0,-1⟩⟩ ⟨0.0005,0,0⟩ ⟨0,0,0⟩).1 = 0.0005 := by
    simp only [RayIntersection.rayEdgeDistance]
    rw [if_pos (by simp [Vector3.sub_def, Vector3.lengthSquared]; norm_num)]
    rw [rayPointDistance_ex2]
  exact ⟨h1, h2, by rw [h1, h2]; norm_num⟩

theorem rayEdgeDistance_degenerate (ray : Ray) (A B : Vector3)
    (h : (B - A).lengthSquared < 1e-6) :
    RayIntersection.rayEdgeDistance ray A B =
      ((RayIntersection.rayPointDistance ray A).1,
       (RayIntersection.rayPointDistance ray A).2, 0) := by
  simp only [RayIntersection.rayEdgeDistance]
  rw [if_pos h]

theorem vec_endpoint_swap (A B : Vector3) (t : ℝ) :
    B + (A - B).smul (1 - t) = A + (B - A).smul t := by
  simp only [Vector3.add_def, Vector3.sub_def, Vector3.smul, Vector3.mk.injEq]
  refine ⟨by ring, by ring, by ring⟩

theorem rayEdgeDistance_parallel_symm (ray : Ray) (A B : Vector3)
    (hlen : ¬ (B - A).lengthSquared < 1e-6)
    (hpar : |Vector3.dot ray.direction ray.direction * Vector3.dot (B - A) (B - A) -
        Vector3.dot ray.direction (B - A) * Vector3.dot ray.direction (B - A)| < 1e-6) :
    (RayIntersection.rayEdgeDistance ray A B).1 =
      (RayIntersection.rayEdgeDistance ray B A).1 := by
  have hswap : (A - B).lengthSquared = (B - A).lengthSquared := by
    simp only [Vector3.lengthSquared, Vector3.sub_def]
    ring
  have hlen' : ¬ (A - B).lengthSquared < 1e-6 := by rw [hswap]; exact hlen
  have hABBA : Vector3.dot (A - B) (A - B) = Vector3.dot (B - A) (B - A) := by
    simp only [Vector3.dot, Vector3.sub_def]
    ring
  have hpar' : |Vector3.dot ray.direction ray.direction * Vector3.dot (A - B) (A - B) -
      Vector3.dot ray.direction (A - B) * Vector3.dot ray.direction (A - B)| < 1e-6 := by
    have hsq : Vector3.dot ray.direction (A - B) * Vector3.dot ray.direction (A - B)
        = Vector3.dot ray.direction (B - A) * Vector3.dot ray.direction (B - A) := by
      simp only [Vector3.dot, Vector3.sub_def]
      ring
    rw [hABBA, hsq]
    exact hpar
  have hcls : Vector3.dot (B - A) (B - A) = (B - A).lengthSquared := by
    simp only [Vector3.dot, Vector3.lengthSquared]
  have hc : Vector3.dot (B - A) (B - A) ≠ 0 := by
    intro h0
    exact hlen (by rw [← hcls, h0]; norm_num)
  have he' : Vector3.dot (A - B) (B - ray.origin)
      = -(Vector3.dot (B - A) (A - ray.origin)) - Vector3.dot (B - A) (B - A) := by
    simp only [Vector3.dot, Vector3.sub_def]
    ring
  have hep : clampR (-(Vector3.dot (A - B) (B - ray.origin)) /
        Vector3.dot (A - B) (A - B)) 0 1
      = 1 - clampR (-(Vector3.dot (B - A) (A - ray.origin)) /
        Vector3.dot (B - A) (B - A)) 0 1 := by
    rw [hABBA, he']
    have harg : -(-(Vector3.dot (B - A) (A - ray.origin)) - Vector3.dot (B - A) (B - A)) /
        Vector3.dot (B - A) (B - A)
        = 1 - -(Vector3.dot (B - A) (A - ray.origin)) / Vector3.dot (B - A) (B - A) := by
      field_simp
    rw [harg, clampR_one_sub]
  simp only [RayIntersection.rayEdgeDistance]
  rw [if_neg hlen, if_neg hlen', if_pos hpar, if_pos hpar', hep, vec_endpoint_swap]

theorem mkRay_xunit : mkRay ⟨0,0,0⟩ ⟨1,0,0⟩ = (⟨⟨0,0,0⟩, ⟨1,0,0⟩⟩ : Ray) := by
  unfold mkRay
  rw [Vector3.normalized_eval _ 1 (by norm_num) (by norm_num)]
  norm_num

theorem rayEdgeDistance_main_ex1 :
    (RayIntersection.rayEdgeDistance ⟨⟨0,0,0⟩, ⟨1,0,0⟩⟩ ⟨-3,1,0⟩ ⟨0,2,0⟩).1
      = Real.sqrt 40 := by
  simp only [RayIntersection.rayEdgeDistance]
  rw [if_neg (by simp [Vector3.sub_def, Vector3.lengthSquared]; norm_num)]
  rw [if_neg (by simp [Vector3.sub_def, Vector3.dot]; norm_num)]
  simp only [Vector3.dot, Vector3.sub_def, Vector3.add_def, Vector3.smul,
    Vector3.lengthSquared, clampR]
  norm_num
  simp only [Vector3.length]
  congr 1
  norm_num

theorem rayEdgeDistance_main_ex2 :
    (RayIntersection.rayEdgeDistance ⟨⟨0,0,0⟩, ⟨1,0,0⟩⟩ ⟨0,2,0⟩ ⟨-3,1,0⟩).1
      = Real.sqrt 3.6 := by
  simp only [RayIntersection.rayEdgeDistance]
  rw [if_neg (by simp [Vector3.sub_def, Vector3.lengthSquared]; norm_num)]
  rw [if_neg (by simp [Vector3.sub_def, Vector3.dot]; norm_num)]
  simp only [Vector3.dot, Vector3.sub_def, Vector3.add_def, Vector3.smul,
    Vector3.lengthSquared, clampR]
  norm_num
  simp only [Vector3.length]
  congr 1
  norm_num

/-- C9 amended: rayEdgeDistance is not symmetric under endpoint swap in
general.  In the degenerate zero-length-edge branch it returns the ray-point
distance to the first endpoint, which depends on argument order; the
parallel-lines fallback branch is symmetric (the closest point pair is
identical); and the main branch is asymmetric as well, witnessed by the ray
along the x axis from the origin against the edge (-3,1,0)-(0,2,0), whose
distance changes from sqrt 40 to sqrt 3.6 under the swap. -/
theorem C9_rayEdgeDistance_swap_amended :
    (∀ (ray : Ray) (A B : Vector3), (B - A).lengthSquared < 1e-6 →
      RayIntersection.rayEdgeDistance ray A B =
        ((RayIntersection.rayPointDistance ray A).1,
         (RayIntersection.rayPointDistance ray A).2, 0)) ∧
    (∀ (ray : Ray) (A B : Vector3), ¬ (B - A).lengthSquared < 1e-6 →
      |Vector3.dot ray.direction ray.direction * Vector3.dot (B - A) (B - A) -
          Vector3.dot ray.direction (B - A) * Vector3.dot ray.direction (B - A)| < 1e-6 →
      (RayIntersection.rayEdgeDistance ray A B).1 =
        (RayIntersection.rayEdgeDistance ray B A).1) ∧
    ((RayIntersection.rayEdgeDistance (mkRay ⟨0,0,0⟩ ⟨1,0,0⟩) ⟨-3,1,0⟩ ⟨0,2,0⟩).1 ≠
      (RayIntersection.rayEdgeDistance (mkRay ⟨0,0,0⟩ ⟨1,0,0⟩) ⟨0,2,0⟩ ⟨-3,1,0⟩).1) := by
  refine ⟨rayEdgeDistance_degenerate, rayEdgeDistance_parallel_symm, ?_⟩
  rw [mkRay_xunit, rayEdgeDistance_main_ex1, rayEdgeDistance_main_ex2]
  intro hcon
  have h36 : Real.sqrt 3.6 < Real.sqrt 40 := by
    apply Real.sqrt_lt_sqrt <;> norm_num
  rw [hcon] at h36
  exact lt_irrefl _ h36

/-- Witness for the amended C9: the degenerate characterization at the
concrete short edge and the parallel-branch symmetry at a concrete parallel
configuration, with all hypotheses discharged. -/
theorem C9_rayEdgeDistance_swap_amended_witness :
    (RayIntersection.rayEdgeDistance (⟨⟨0,0,1⟩, ⟨0,0,-1⟩⟩ : Ray) ⟨0,0,0⟩ ⟨0.0005,0,0⟩ =
      ((RayIntersection.rayPointDistance (⟨⟨0,0,1⟩, ⟨0,0,-1⟩⟩ : Ray) ⟨0,0,0⟩).1,
       (RayIntersection.rayPointDistance (⟨⟨0,0,1⟩, ⟨0,0,-1⟩⟩ : Ray) ⟨0,0,0⟩).2, 0)) ∧
    ((RayIntersection.rayEdgeDistance (⟨⟨0,0,0⟩, ⟨1,0,0⟩⟩ : Ray) ⟨0,1,0⟩ ⟨1,1,0⟩).1 =
      (RayIntersection.rayEdgeDistance (⟨⟨0,0,0⟩, ⟨1,0,0⟩⟩ : Ray) ⟨1,1,0⟩ ⟨0,1,0⟩).1) := by
  constructor
  · exact C9_rayEdgeDistance_swap_amended.1 _ _ _
      (by simp [Vector3.sub_def, Vector3.lengthSquared]; norm_num)
  · exact C9_rayEdgeDistance_swap_amended.2.1 _ _ _
      (by simp [Vector3.sub_def, Vector3.lengthSquared]; norm_num)
      (by simp [Vector3.sub_def, Vector3.dot]; norm_num)

/-! ### C6: behind-camera handling in the screen-space tests -/

/-- C6 amended: a vertex with forward depth at most 0.001 is never reported
hit; an edge or axis line with both endpoints behind the camera is never
reported hit; and a single behind-camera endpoint is not excluded but replaced
by the sentinel projection (0,0,-1), so its screen position (0,0) still enters
the projected 2D segment used for the distance comparison. -/
theorem C6_behind_camera_amended :
    (∀ (ray : Ray) (vertex : Vector3) (threshold : ℝ) (vi : ℤ)
       (cameraPos cameraTarget cameraUp : Vector3) (fov aspect : ℝ),
      Vector3.dot (vertex - cameraPos) ((cameraTarget - cameraPos).normalized) ≤ 0.001 →
      (RayIntersection.intersectVertexScreenSpace ray vertex threshold vi
        cameraPos cameraTarget cameraUp fov aspect).hit = false) ∧
    (∀ (cameraPos forward right up point : Vector3),
      Vector3.dot (point - cameraPos) forward ≤ 0.001 →
      RayIntersection.projectToScreen cameraPos forward right up point = ⟨0, 0, -1⟩) ∧
    (∀ (ray : Ray) (edgeStart edgeEnd : Vector3) (threshold : ℝ) (ei : ℤ)
       (cameraPos cameraTarget cameraUp : Vector3) (fov aspect : ℝ),
      Vector3.dot (edgeStart - cameraPos) ((cameraTarget - cameraPos).normalized) ≤ 0.001 →
      Vector3.dot (edgeEnd - cameraPos) ((cameraTarget - cameraPos).normalized) ≤ 0.001 →
      (RayIntersection.intersectEdgeScreenSpace ray edgeStart edgeEnd threshold ei
        cameraPos cameraTarget cameraUp fov aspect).hit = false) ∧
    (∀ (ray : Ray) (line : Line) (threshold : ℝ) (li : ℤ)
       (cameraPos cameraTarget cameraUp : Vector3) (fov aspect : ℝ),
      Vector3.dot (line.start - cameraPos) ((cameraTarget - cameraPos).normalized) ≤ 0.001 →
      Vector3.dot (line.stop - cameraPos) ((cameraTarget - cameraPos).normalized) ≤ 0.001 →
      (RayIntersection.intersectLineScreenSpace ray line threshold li
        cameraPos cameraTarget cameraUp fov aspect).hit = false) := by
  have hproj : ∀ (cameraPos forward right up point : Vector3),
      Vector3.dot (point - cameraPos) forward ≤ 0.001 →
      RayIntersection.projectToScreen cameraPos forward right up point = ⟨0, 0, -1⟩ := by
    intro cameraPos forward right up point h
    simp only [RayIntersection.projectToScreen]
    rw [if_pos h]
  refine ⟨?_, hproj, ?_, ?_⟩
  · intro ray vertex threshold vi cameraPos cameraTarget cameraUp fov aspect h
    simp only [RayIntersection.intersectVertexScreenSpace]
    rw [if_pos h]
  · intro ray edgeStart edgeEnd threshold ei cameraPos cameraTarget cameraUp fov aspect h1 h2
    simp only [RayIntersection.intersectEdgeScreenSpace]
    rw [hproj _ _ _ _ _ h1, hproj _ _ _ _ _ h2]
    rw [if_pos (by norm_num)]
  · intro ray line threshold li cameraPos cameraTarget cameraUp fov aspect h1 h2
    simp only [RayIntersection.intersectLineScreenSpace]
    rw [hproj _ _ _ _ _ h1, hproj _ _ _ _ _ h2]
    rw [if_pos (by norm_num)]

theorem mkRay_yunit : mkRay ⟨0,0,0⟩ ⟨0,1,0⟩ = (⟨⟨0,0,0⟩, ⟨0,1,0⟩⟩ : Ray) := by
  unfold mkRay
  rw [Vector3.normalized_eval _ 1 (by norm_num) (by norm_num)]
  norm_num

theorem forward_eval_ex : ((⟨0,1,0⟩ : Vector3) - ⟨0,0,0⟩).normalized = ⟨0,1,0⟩ := by
  have h : (⟨0,1,0⟩ : Vector3) - ⟨0,0,0⟩ = ⟨0,1,0⟩ := by
    simp [Vector3.sub_def]
  rw [h, Vector3.normalized_eval _ 1 (by norm_num) (by norm_num)]
  norm_num

theorem right_eval_ex : (Vector3.cross ⟨0,1,0⟩ ⟨0,0,1⟩).normalized = ⟨1,0,0⟩ := by
  have h : Vector3.cross ⟨0,1,0⟩ ⟨0,0,1⟩ = ⟨1,0,0⟩ := by
    simp [Vector3.cross]
  rw [h, Vector3.normalized_eval _ 1 (by norm_num) (by norm_num)]
  norm_num

theorem up_eval_ex : Vector3.cross ⟨1,0,0⟩ ⟨0,1,0⟩ = ⟨0,0,1⟩ := by
  simp [Vector3.cross]

theorem proj_behind_ex :
    RayIntersection.projectToScreen ⟨0,0,0⟩ ⟨0,1,0⟩ ⟨1,0,0⟩ ⟨0,0,1⟩ ⟨0,-1,5⟩ = ⟨0,0,-1⟩ := by
  simp only [RayIntersection.projectToScreen, Vector3.sub_def, Vector3.dot]
  norm_num

theorem proj_front_ex :
    RayIntersection.projectToScreen ⟨0,0,0⟩ ⟨0,1,0⟩ ⟨1,0,0⟩ ⟨0,0,1⟩ ⟨2,1,0⟩ = ⟨2,0,1⟩ := by
  simp only [RayIntersection.projectToScreen, Vector3.sub_def, Vector3.dot]
  norm_num

theorem length_zero_ex : (Vector3.mk 0 0 0).length = 0 := by
  rw [Vector3.length_eval _ 0 le_rfl (by norm_num)]

theorem length_two_ex : (Vector3.mk 2 0 0).length = 2 := by
  rw [Vector3.length_eval _ 2 (by norm_num) (by norm_num)]

theorem length_negtwo_ex : (Vector3.mk (-2) 0 0).length = 2 := by
  rw [Vector3.length_eval _ 2 (by norm_num) (by norm_num)]

/-- C6 counterexample: with the camera at the origin looking along +y, the
edge from (0,-1,5) (behind the camera, depth -1) to (2,1,0) and the pick ray
along +y, intersectEdgeScreenSpace reports a hit at threshold 0.1 because the
behind endpoint enters the 2D test as the sentinel point (0,0); testing the
segment collapsed to its only in-front endpoint (2,1,0) misses at the same
threshold, so the behind endpoint did contribute to the projected segment. -/
theorem C6_behind_endpoint_counterexample :
    Vector3.dot ((⟨0,-1,5⟩ : Vector3) - ⟨0,0,0⟩)
      (((⟨0,1,0⟩ : Vector3) - ⟨0,0,0⟩).normalized) ≤ 0.001 ∧
    (RayIntersection.intersectEdgeScreenSpace (mkRay ⟨0,0,0⟩ ⟨0,1,0⟩) ⟨0,-1,5⟩ ⟨2,1,0⟩
      0.1 0 ⟨0,0,0⟩ ⟨0,1,0⟩ ⟨0,0,1⟩ 1 1).hit = true ∧
    (RayIntersection.intersectEdgeScreenSpace (mkRay ⟨0,0,0⟩ ⟨0,1,0⟩) ⟨2,1,0⟩ ⟨2,1,0⟩
      0.1 0 ⟨0,0,0⟩ ⟨0,1,0⟩ ⟨0,0,1⟩ 1 1).hit = false := by
  refine ⟨?_, ?_, ?_⟩
  · rw [forward_eval_ex]
    simp [Vector3.dot, Vector3.sub_def]
    norm_num
  · rw [mkRay_yunit]
    simp only [RayIntersection.intersectEdgeScreenSpace, forward_eval_ex,
      right_eval_ex, up_eval_ex, proj_behind_ex, proj_front_ex]
    norm_num [Vector3.dot, Vector3.sub_def, Vector3.smul, Vector3.sdiv,
      Vector3.add_def, clampR, length_zero_ex, length_two_ex]
  · rw [mkRay_yunit]
    simp only [RayIntersection.intersectEdgeScreenSpace, forward_eval_ex,
      right_eval_ex, up_eval_ex, proj_front_ex]
    norm_num [Vector3.dot, Vector3.sub_def, Vector3.smul, Vector3.sdiv,
      Vector3.add_def, clampR, length_zero_ex, length_negtwo_ex]

/-- Witness for the amended C6: each behind-camera exclusion applied at a
concrete camera, point, edge and line, with the depth hypotheses discharged. -/
theorem C6_behind_camera_amended_witness :
    (RayIntersection.intersectVertexScreenSpace (⟨⟨0,0,0⟩, ⟨0,1,0⟩⟩ : Ray) ⟨0,-1,0⟩ 0.1 0
      ⟨0,0,0⟩ ⟨0,1,0⟩ ⟨0,0,1⟩ 1 1).hit = false ∧
    RayIntersection.projectToScreen ⟨0,0,0⟩ ⟨0,1,0⟩ ⟨1,0,0⟩ ⟨0,0,1⟩ ⟨0,-1,0⟩ = ⟨0,0,-1⟩ ∧
    (RayIntersection.intersectEdgeScreenSpace (⟨⟨0,0,0⟩, ⟨0,1,0⟩⟩ : Ray) ⟨0,-1,0⟩ ⟨1,-2,0⟩
      0.1 0 ⟨0,0,0⟩ ⟨0,1,0⟩ ⟨0,0,1⟩ 1 1).hit = false ∧
    (RayIntersection.intersectLineScreenSpace (⟨⟨0,0,0⟩, ⟨0,1,0⟩⟩ : Ray)
      ⟨⟨0,-1,0⟩, ⟨1,-2,0⟩, ⟨1,1,1⟩, 1⟩ 0.1 0 ⟨0,0,0⟩ ⟨0,1,0⟩ ⟨0,0,1⟩ 1 1).hit = false := by
  have hb1 : Vector3.dot ((⟨0,-1,0⟩ : Vector3) - ⟨0,0,0⟩)
      (((⟨0,1,0⟩ : Vector3) - ⟨0,0,0⟩).normalized) ≤ 0.001 := by
    rw [forward_eval_ex]
    simp [Vector3.dot, Vector3.sub_def]
    norm_num
  have hb2 : Vector3.dot ((⟨1,-2,0⟩ : Vector3) - ⟨0,0,0⟩)
      (((⟨0,1,0⟩ : Vector3) - ⟨0,0,0⟩).normalized) ≤ 0.001 := by
    rw [forward_eval_ex]
    simp [Vector3.dot, Vector3.sub_def]
    norm_num
  refine ⟨C6_behind_camera_amended.1 _ _ _ _ _ _ _ _ _ hb1, ?_, ?_, ?_⟩
  · refine C6_behind_camera_amended.2.1 _ _ _ _ _ ?_
    simp [Vector3.dot, Vector3.sub_def]
    norm_num
  · exact C6_behind_camera_amended.2.2.1 ⟨⟨0,0,0⟩, ⟨0,1,0⟩⟩ ⟨0,-1,0⟩ ⟨1,-2,0⟩
      0.1 0 ⟨0,0,0⟩ ⟨0,1,0⟩ ⟨0,0,1⟩ 1 1 hb1 hb2
  · exact C6_behind_camera_amended.2.2.2 ⟨⟨0,0,0⟩, ⟨0,1,0⟩⟩
      ⟨⟨0,-1,0⟩, ⟨1,-2,0⟩, ⟨1,1,1⟩, 1⟩ 0.1 0 ⟨0,0,0⟩ ⟨0,1,0⟩ ⟨0,0,1⟩ 1 1 hb1 hb2

/-! ### C7: invalid topology references are skipped silently -/

theorem foldl_filter_of_skip {α σ : Type _} (f : σ → α → σ) (p : α → Bool)
    (hf : ∀ (st : σ) (x : α), p x = false → f st x = st) :
    ∀ (l : List α) (st : σ), l.foldl f st = (l.filter p).foldl f st := by
  intro l
  induction l with
  | nil => intro st; rfl
  | cons x l ih =>
    intro st
    by_cases hx : p x = true
    · rw [List.foldl_cons, List.filter_cons_of_pos hx, List.foldl_cons]
      exact ih (f st x)
    · have hx' : p x = false := by
        cases hpx : p x
        · rfl
        · exact absurd hpx hx
      rw [List.foldl_cons, hf st x hx', List.filter_cons_of_neg (by simp [hx'])]
      exact ih st

/-- Modelled from the spec: the result of scanning only the validly-indexed
primitives, each keeping its original index; the comparison definition for C7. -/
def findClosestIntersectionValidOnly (ray : Ray) (model : Model)
    (vertexThreshold edgeThreshold : ℝ) : RaycastResult :=
  let st0 : ℝ × RaycastResult := (FLOAT_MAX, {})
  let st1 := model.vertices.enum.foldl
    (RayIntersection.vertexScanStep ray vertexThreshold) st0
  let st2 := (model.edges.enum.filter fun p => decide
      (¬ (p.2.v1 ≥ model.vertices.length ∨ p.2.v2 ≥ model.vertices.length))).foldl
    (RayIntersection.edgeScanStep ray model.vertices edgeThreshold) st1
  let st3 := (model.faces.enum.filter fun p => decide
      (¬ (p.2.v1 ≥ model.vertices.length ∨ p.2.v2 ≥ model.vertices.length ∨
          p.2.v3 ≥ model.vertices.length))).foldl
    (RayIntersection.faceScanStep ray model.vertices) st2
  st3.2

/-- C7: findClosestIntersection silently skips every edge or face with an
out-of-range vertex index, so its result equals the scan over only the
validly-indexed primitives and no vertex access is out of range. -/
theorem C7_invalid_indices_skipped (ray : Ray) (model : Model)
    (vertexThreshold edgeThreshold : ℝ) :
    RayIntersection.findClosestIntersection ray model vertexThreshold edgeThreshold =
      findClosestIntersectionValidOnly ray model vertexThreshold edgeThreshold := by
  simp only [RayIntersection.findClosestIntersection, findClosestIntersectionValidOnly]
  rw [foldl_filter_of_skip (RayIntersection.edgeScanStep ray model.vertices edgeThreshold)
      (fun p => decide
        (¬ (p.2.v1 ≥ model.vertices.length ∨ p.2.v2 ≥ model.vertices.length)))
      (by
        intro st x hx
        simp only [decide_eq_false_iff_not, not_not] at hx
        simp only [RayIntersection.edgeScanStep, if_pos hx]),
    foldl_filter_of_skip (RayIntersection.faceScanStep ray model.vertices)
      (fun p => decide
        (¬ (p.2.v1 ≥ model.vertices.length ∨ p.2.v2 ≥ model.vertices.length ∨
            p.2.v3 ≥ model.vertices.length)))
      (by
        intro st x hx
        simp only [decide_eq_false_iff_not, not_not] at hx
        simp only [RayIntersection.faceScanStep, if_pos hx])]

/-! ### C3 and C5: selection threshold scaling and return value semantics -/

/-- Single-vertex test model: one vertex at the origin, no faces, no edges,
nothing selected. -/
def selModel : Model := ⟨[⟨⟨0,0,0⟩, ⟨0,0,1⟩⟩], [], [], -1⟩

/-- The single-vertex test model with its vertex 0 already selected. -/
def selModelSel : Model := ⟨[⟨⟨0,0,0⟩, ⟨0,0,1⟩⟩], [], [], 0⟩

/-- Modelled from the spec: Model::selectVertex with the camera-scaled
threshold passed in directly; the comparison definition for C3. -/
def selectVertexScaled (m : Model) (ray : Ray) (camera : Camera)
    (dynamicThreshold : ℝ) : Bool × Model :=
  let scan := m.vertices.enum.foldl
    (Model.selectScanStep ray camera.getPosition m dynamicThreshold) (-1, FLOAT_MAX)
  if scan.1 = -1 then
    let deselectionThreshold := dynamicThreshold * 2.0
    if m.hasSelection then
      let selectedPos := (m.vertices.getD m.selectedVertexIndex.toNat
        {position := Vector3.zero}).position
      let distToSelected := (RayIntersection.rayPointDistance ray selectedPos).1
      if distToSelected > deselectionThreshold then (true, m.clearSelection)
      else (false, m)
    else (false, m)
  else (true, m.setSelectedVertex scan.1)

theorem normalized_y_eval : (Vector3.mk 0 1 0).normalized = ⟨0,1,0⟩ := by
  rw [Vector3.normalized_eval _ 1 (by norm_num) (by norm_num)]
  norm_num

theorem mkRay_pickA : mkRay ⟨0.05,-5,0⟩ ⟨0,1,0⟩ = (⟨⟨0.05,-5,0⟩, ⟨0,1,0⟩⟩ : Ray) := by
  unfold mkRay
  rw [normalized_y_eval]

theorem mkRay_pickB : mkRay ⟨0.15,-5,0⟩ ⟨0,1,0⟩ = (⟨⟨0.15,-5,0⟩, ⟨0,1,0⟩⟩ : Ray) := by
  unfold mkRay
  rw [normalized_y_eval]

theorem rayPointDistance_pickA :
    RayIntersection.rayPointDistance ⟨⟨0.05,-5,0⟩, ⟨0,1,0⟩⟩ ⟨0,0,0⟩ = (0.05, 5) := by
  simp only [RayIntersection.rayPointDistance, Vector3.sub_def, Vector3.add_def,
    Vector3.smul, Vector3.dot]
  norm_num
  rw [Vector3.length_eval _ 0.05 (by norm_num) (by norm_num)]
  norm_num

theorem rayPointDistance_pickB :
    RayIntersection.rayPointDistance ⟨⟨0.15,-5,0⟩, ⟨0,1,0⟩⟩ ⟨0,0,0⟩ = (0.15, 5) := by
  simp only [RayIntersection.rayPointDistance, Vector3.sub_def, Vector3.add_def,
    Vector3.smul, Vector3.dot]
  norm_num
  rw [Vector3.length_eval _ 0.15 (by norm_num) (by norm_num)]
  norm_num

theorem isVertexVisible_no_faces (pos v : Vector3) (m : Model) (hf : m.faces = []) :
    RayIntersection.isVertexVisible pos v m = true := by
  simp [RayIntersection.isVertexVisible, hf]

theorem selectScan_pickA (m : Model) (pos : Vector3)
    (hv : m.vertices = [⟨⟨0,0,0⟩, ⟨0,0,1⟩⟩]) (hf : m.faces = []) :
    m.vertices.enum.foldl
      (Model.selectScanStep ⟨⟨0.05,-5,0⟩, ⟨0,1,0⟩⟩ pos m
        (0.2 * Camera.init.distance * 0.1)) (-1, FLOAT_MAX) = (0, 5) := by
  rw [hv]
  rw [show (List.enum [(⟨⟨0,0,0⟩, ⟨0,0,1⟩⟩ : Vertex)])
      = [(0, ⟨⟨0,0,0⟩, ⟨0,0,1⟩⟩)] from rfl]
  rw [List.foldl_cons, List.foldl_nil]
  simp only [Model.selectScanStep]
  rw [if_neg (by simp [isVertexVisible_no_faces pos _ m hf])]
  simp only [RayIntersection.intersectVertex, rayPointDistance_pickA]
  rw [show Camera.init.distance = (5.0:ℝ) from rfl]
  norm_num [FLOAT_MAX]

theorem selectScan_pickB (m : Model) (pos : Vector3)
    (hv : m.vertices = [⟨⟨0,0,0⟩, ⟨0,0,1⟩⟩]) (hf : m.faces = []) :
    m.vertices.enum.foldl
      (Model.selectScanStep ⟨⟨0.15,-5,0⟩, ⟨0,1,0⟩⟩ pos m
        (0.2 * Camera.init.distance * 0.1)) (-1, FLOAT_MAX) = (-1, FLOAT_MAX) := by
  rw [hv]
  rw [show (List.enum [(⟨⟨0,0,0⟩, ⟨0,0,1⟩⟩ : Vertex)])
      = [(0, ⟨⟨0,0,0⟩, ⟨0,0,1⟩⟩)] from rfl]
  rw [List.foldl_cons, List.foldl_nil]
  simp only [Model.selectScanStep]
  rw [if_neg (by simp [isVertexVisible_no_faces pos _ m hf])]
  simp only [RayIntersection.intersectVertex, rayPointDistance_pickB]
  rw [show Camera.init.distance = (5.0:ℝ) from rfl]
  norm_num

/-- C3: selectVertex uses the scaled threshold base * cameraDistance * 0.1 as
the vertex hit tolerance; with one vertex at the origin, base threshold 0.2,
camera distance 5 and no faces, the pick ray at closest distance 0.05 selects
the vertex and the pick ray at closest distance 0.15 does not. -/
theorem C3_selectVertex_scaled_threshold :
    (∀ (m : Model) (ray : Ray) (camera : Camera) (baseThreshold : ℝ),
      Model.selectVertex m ray camera baseThreshold =
        selectVertexScaled m ray camera (baseThreshold * camera.distance * 0.1)) ∧
    (Model.selectVertex selModel (mkRay ⟨0.05,-5,0⟩ ⟨0,1,0⟩) Camera.init 0.2 =
      (true, { selModel with selectedVertexIndex := 0 })) ∧
    (Model.selectVertex selModel (mkRay ⟨0.15,-5,0⟩ ⟨0,1,0⟩) Camera.init 0.2 =
      (false, selModel)) := by
  refine ⟨fun m ray camera baseThreshold => rfl, ?_, ?_⟩
  · rw [mkRay_pickA]
    simp only [Model.selectVertex]
    rw [selectScan_pickA selModel _ rfl rfl]
    norm_num
    simp [Model.setSelectedVertex, Model.isVertexIndexValid, selModel]
  · rw [mkRay_pickB]
    simp only [Model.selectVertex]
    rw [selectScan_pickB selModel _ rfl rfl]
    norm_num [Model.hasSelection, selModel]

/-- C5 counterexample: with vertex 0 already selected, picking it again
returns true although the stored selection state is unchanged, refuting
"returns true iff the selection state changed". -/
theorem C5_reselect_counterexample :
    (Model.selectVertex selModelSel (mkRay ⟨0.05,-5,0⟩ ⟨0,1,0⟩) Camera.init 0.2).1 = true ∧
    (Model.selectVertex selModelSel (mkRay ⟨0.05,-5,0⟩ ⟨0,1,0⟩) Camera.init 0.2).2 =
      selModelSel := by
  rw [mkRay_pickA]
  simp only [Model.selectVertex]
  rw [selectScan_pickA selModelSel _ rfl rfl]
  norm_num
  simp [Model.setSelectedVertex, Model.isVertexIndexValid, selModelSel]

/-- C5 amended: selectVertex returns true exactly when it selects a vertex
(possibly the one already selected, so true does not imply a state change) or
clears the selection; in the no-hit case it clears exactly when a vertex is
selected and the pick ray's closest distance to it exceeds twice the scaled
threshold, and otherwise leaves the model unchanged and returns false. -/
theorem C5_selectVertex_return_semantics (m : Model) (ray : Ray)
    (camera : Camera) (baseThreshold : ℝ) :
    let thr := baseThreshold * camera.distance * 0.1
    let scan := m.vertices.enum.foldl
      (Model.selectScanStep ray camera.getPosition m thr) (-1, FLOAT_MAX)
    let res := Model.selectVertex m ray camera baseThreshold
    let selPos := (m.vertices.getD m.selectedVertexIndex.toNat
      {position := Vector3.zero}).position
    ((res.1 = true) ↔ (scan.1 ≠ -1 ∨ (m.hasSelection = true ∧
        (RayIntersection.rayPointDistance ray selPos).1 > thr * 2.0))) ∧
    (scan.1 ≠ -1 → res = (true, m.setSelectedVertex scan.1)) ∧
    (scan.1 = -1 → m.hasSelection = true →
      (RayIntersection.rayPointDistance ray selPos).1 > thr * 2.0 →
      res = (true, m.clearSelection)) ∧
    (scan.1 = -1 → m.hasSelection = true →
      ¬ (RayIntersection.rayPointDistance ray selPos).1 > thr * 2.0 →
      res = (false, m)) ∧
    (scan.1 = -1 → m.hasSelection = false → res = (false, m)) := by
  intro thr scan res selPos
  have hres : res = if scan.1 = -1 then
      (if m.hasSelection then
        (if (RayIntersection.rayPointDistance ray selPos).1 > thr * 2.0 then
          (true, m.clearSelection)
        else (false, m))
      else (false, m))
    else (true, m.setSelectedVertex scan.1) := rfl
  by_cases hscan : scan.1 = -1
  · by_cases hsel : m.hasSelection = true
    · by_cases hdist : (RayIntersection.rayPointDistance ray selPos).1 > thr * 2.0
      · rw [hres, if_pos hscan, if_pos hsel, if_pos hdist]
        refine ⟨?_, fun h => absurd hscan h, fun _ _ _ => rfl,
          fun _ _ h => absurd hdist h, fun _ h => by simp [h] at hsel⟩
        simp [hscan, hsel, hdist]
      · rw [hres, if_pos hscan, if_pos hsel, if_neg hdist]
        refine ⟨?_, fun h => absurd hscan h, fun _ _ h => absurd h hdist,
          fun _ _ _ => rfl, fun _ h => by simp [h] at hsel⟩
        simp [hscan, hdist]
    · have hsel' : m.hasSelection = false := by
        cases h : m.hasSelection
        · rfl
        · exact absurd h hsel
      rw [hres, if_pos hscan, if_neg (by simp [hsel'])]
      refine ⟨?_, fun h => absurd hscan h, fun _ h => absurd h hsel,
        fun _ h => absurd h hsel, fun _ _ => rfl⟩
      simp [hscan, hsel']
  · rw [hres, if_neg hscan]
    refine ⟨?_, fun _ => rfl, fun h => absurd h hscan, fun h => absurd h hscan,
      fun h => absurd h hscan⟩
    simp [hscan]

/-- Witness for the amended C5: the no-hit, nothing-selected case at the
concrete single-vertex model and the 0.15-distance pick ray, which leaves the
model unchanged and returns false. -/
theorem C5_selectVertex_return_semantics_witness :
    Model.selectVertex selModel ⟨⟨0.15,-5,0⟩, ⟨0,1,0⟩⟩ Camera.init 0.2 =
      (false, selModel) := by
  have h := (C5_selectVertex_return_semantics selModel ⟨⟨0.15,-5,0⟩, ⟨0,1,0⟩⟩
    Camera.init 0.2).2.2.2.2
  exact h (by rw [selectScan_pickB selModel _ rfl rfl]) rfl

/-! ### C2: global nearest hit and category tie-breaking -/

theorem scanFold_spec {β : Type} (f : ℝ × RaycastResult → β → ℝ × RaycastResult)
    (g : β → Option ℝ) (ty : RaycastResultType)
    (hup : ∀ (st : ℝ × RaycastResult) (x : β) (d : ℝ), g x = some d → d < st.1 →
      (f st x).1 = d ∧ (f st x).2.type = ty ∧ (f st x).2.distance = d)
    (hnone : ∀ st x, g x = none → f st x = st)
    (hge : ∀ st x d, g x = some d → ¬ d < st.1 → f st x = st) :
    ∀ (l : List β) (st : ℝ × RaycastResult),
      (l.foldl f st = st ∧ ∀ d ∈ l.filterMap g, st.1 ≤ d) ∨
      ((l.foldl f st).1 ∈ l.filterMap g ∧ (l.foldl f st).1 < st.1 ∧
        (∀ d ∈ l.filterMap g, (l.foldl f st).1 ≤ d) ∧
        (l.foldl f st).2.type = ty ∧
        (l.foldl f st).2.distance = (l.foldl f st).1) := by
  intro l
  induction l with
  | nil =>
    intro st
    left
    exact ⟨rfl, by simp⟩
  | cons x l ih =>
    intro st
    rw [List.foldl_cons]
    cases hx : g x with
    | none =>
      rw [hnone st x hx]
      rcases ih st with ⟨heq, hbd⟩ | ⟨hmem, hlt, hbd, hty, hdst⟩
      · left
        refine ⟨heq, ?_⟩
        intro d hd
        simp only [List.filterMap_cons, hx] at hd
        exact hbd d hd
      · right
        refine ⟨?_, hlt, ?_, hty, hdst⟩
        · simp only [List.filterMap_cons, hx]
          exact hmem
        · intro d hd
          simp only [List.filterMap_cons, hx] at hd
          exact hbd d hd
    | some d0 =>
      by_cases hlt0 : d0 < st.1
      · obtain ⟨h1, h2, h3⟩ := hup st x d0 hx hlt0
        rcases ih (f st x) with ⟨heq, hbd⟩ | ⟨hmem, hlt, hbd, hty, hdst⟩
        · right
          rw [heq]
          refine ⟨?_, ?_, ?_, h2, by rw [h3, h1]⟩
          · simp only [List.filterMap_cons, hx, List.mem_cons]
            left
            exact h1
          · rw [h1]
            exact hlt0
          · intro d hd
            simp only [List.filterMap_cons, hx, List.mem_cons] at hd
            rcases hd with rfl | hd
            · rw [h1]
            · exact hbd d hd
        · right
          refine ⟨?_, ?_, ?_, hty, hdst⟩
          · simp only [List.filterMap_cons, hx, List.mem_cons]
            right
            exact hmem
          · have hlt' : (List.foldl f (f st x) l).1 < d0 := h1 ▸ hlt
            exact hlt'.trans hlt0
          · intro d hd
            simp only [List.filterMap_cons, hx, List.mem_cons] at hd
            rcases hd with rfl | hd
            · exact le_of_lt (h1 ▸ hlt)
            · exact hbd d hd
      · rw [hge st x d0 hx hlt0]
        rcases ih st with ⟨heq, hbd⟩ | ⟨hmem, hlt, hbd, hty, hdst⟩
        · left
          refine ⟨heq, ?_⟩
          intro d hd
          simp only [List.filterMap_cons, hx, List.mem_cons] at hd
          rcases hd with rfl | hd
          · exact le_of_not_lt hlt0
          · exact hbd d hd
        · right
          refine ⟨?_, hlt, ?_, hty, hdst⟩
          · simp only [List.filterMap_cons, hx, List.mem_cons]
            right
            exact hmem
          · intro d hd
            simp only [List.filterMap_cons, hx, List.mem_cons] at hd
            rcases hd with rfl | hd
            · exact le_of_lt (lt_of_lt_of_le hlt (le_of_not_lt hlt0))
            · exact hbd d hd

/-- The hit distance a vertex contributes to the findClosestIntersection
scan, when it passes the threshold test. -/
def vertexDist (ray : Ray) (vertexThreshold : ℝ) (p : ℕ × Vertex) : Option ℝ :=
  let h := RayIntersection.intersectVertex ray p.2.position vertexThreshold (p.1 : ℤ)
  if h.hit then some h.distance else none

/-- The hit distance a validly-indexed edge contributes to the scan. -/
def edgeDist (ray : Ray) (vertices : List Vertex) (edgeThreshold : ℝ)
    (p : ℕ × Edge) : Option ℝ :=
  if p.2.v1 ≥ vertices.length ∨ p.2.v2 ≥ vertices.length then none
  else
    let h := RayIntersection.intersectEdge ray
      (vertices.getD p.2.v1 {position := Vector3.zero}).position
      (vertices.getD p.2.v2 {position := Vector3.zero}).position
      edgeThreshold (p.1 : ℤ)
    if h.hit then some h.distance else none

/-- The hit distance a validly-indexed face contributes to the scan. -/
def faceDist (ray : Ray) (vertices : List Vertex) (p : ℕ × Face) : Option ℝ :=
  if p.2.v1 ≥ vertices.length ∨ p.2.v2 ≥ vertices.length ∨
      p.2.v3 ≥ vertices.length then none
  else
    let h := RayIntersection.intersectTriangle ray
      (vertices.getD p.2.v1 {position := Vector3.zero}).position
      (vertices.getD p.2.v2 {position := Vector3.zero}).position
      (vertices.getD p.2.v3 {position := Vector3.zero}).position
    if h.hit then some h.distance else none

/-- Ray parameters of all vertex hits within the vertex threshold. -/
def vertexHitDistances (ray : Ray) (m : Model) (vertexThreshold : ℝ) : List ℝ :=
  m.vertices.enum.filterMap (vertexDist ray vertexThreshold)

/-- Ray parameters of all valid edge hits within the edge threshold. -/
def edgeHitDistances (ray : Ray) (m : Model) (edgeThreshold : ℝ) : List ℝ :=
  m.edges.enum.filterMap (edgeDist ray m.vertices edgeThreshold)

/-- Ray parameters of all valid face hits. -/
def faceHitDistances (ray : Ray) (m : Model) : List ℝ :=
  m.faces.enum.filterMap (faceDist ray m.vertices)

/-- Ray parameters of all candidate hits, in scan order. -/
def allHitDistances (ray : Ray) (m : Model) (vertexThreshold edgeThreshold : ℝ) : List ℝ :=
  vertexHitDistances ray m vertexThreshold ++ edgeHitDistances ray m edgeThreshold ++
    faceHitDistances ray m

theorem vertexScan_up (ray : Ray) (vt : ℝ) :
    ∀ (st : ℝ × RaycastResult) (x : ℕ × Vertex) (d : ℝ),
      vertexDist ray vt x = some d → d < st.1 →
      (RayIntersection.vertexScanStep ray vt st x).1 = d ∧
      (RayIntersection.vertexScanStep ray vt st x).2.type = RaycastResultType.VERTEX ∧
      (RayIntersection.vertexScanStep ray vt st x).2.distance = d := by
  intro st x d hd hlt
  simp only [vertexDist] at hd
  by_cases hh : (RayIntersection.intersectVertex ray x.2.position vt (x.1 : ℤ)).hit
  · rw [if_pos hh] at hd
    injection hd with hd
    simp only [RayIntersection.vertexScanStep]
    rw [if_pos ⟨hh, by rw [hd]; exact hlt⟩]
    exact ⟨hd, rfl, hd⟩
  · rw [if_neg hh] at hd
    cases hd

theorem vertexScan_none (ray : Ray) (vt : ℝ) :
    ∀ (st : ℝ × RaycastResult) (x : ℕ × Vertex),
      vertexDist ray vt x = none → RayIntersection.vertexScanStep ray vt st x = st := by
  intro st x hd
  simp only [vertexDist] at hd
  by_cases hh : (RayIntersection.intersectVertex ray x.2.position vt (x.1 : ℤ)).hit
  · rw [if_pos hh] at hd
    cases hd
  · simp only [RayIntersection.vertexScanStep]
    rw [if_neg (by intro hc; exact hh hc.1)]

theorem vertexScan_ge (ray : Ray) (vt : ℝ) :
    ∀ (st : ℝ × RaycastResult) (x : ℕ × Vertex) (d : ℝ),
      vertexDist ray vt x = some d → ¬ d < st.1 →
      RayIntersection.vertexScanStep ray vt st x = st := by
  intro st x d hd hge
  simp only [vertexDist] at hd
  by_cases hh : (RayIntersection.intersectVertex ray x.2.position vt (x.1 : ℤ)).hit
  · rw [if_pos hh] at hd
    injection hd with hd
    simp only [RayIntersection.vertexScanStep]
    rw [if_neg (by intro hc; rw [hd] at hc; exact hge hc.2)]
  · rw [if_neg hh] at hd
    cases hd

theorem edgeScan_up (ray : Ray) (vs : List Vertex) (et : ℝ) :
    ∀ (st : ℝ × RaycastResult) (x : ℕ × Edge) (d : ℝ),
      edgeDist ray vs et x = some d → d < st.1 →
      (RayIntersection.edgeScanStep ray vs et st x).1 = d ∧
      (RayIntersection.edgeScanStep ray vs et st x).2.type = RaycastResultType.EDGE ∧
      (RayIntersection.edgeScanStep ray vs et st x).2.distance = d := by
  intro st x d hd hlt
  simp only [edgeDist] at hd
  by_cases hv : x.2.v1 ≥ vs.length ∨ x.2.v2 ≥ vs.length
  · rw [if_pos hv] at hd
    cases hd
  · rw [if_neg hv] at hd
    by_cases hh : (RayIntersection.intersectEdge ray
        (vs.getD x.2.v1 {position := Vector3.zero}).position
        (vs.getD x.2.v2 {position := Vector3.zero}).position et (x.1 : ℤ)).hit
    · rw [if_pos hh] at hd
      injection hd with hd
      simp only [RayIntersection.edgeScanStep]
      rw [if_neg hv, if_pos ⟨hh, by rw [hd]; exact hlt⟩]
      exact ⟨hd, rfl, hd⟩
    · rw [if_neg hh] at hd
      cases hd

theorem edgeScan_none (ray : Ray) (vs : List Vertex) (et : ℝ) :
    ∀ (st : ℝ × RaycastResult) (x : ℕ × Edge),
      edgeDist ray vs et x = none → RayIntersection.edgeScanStep ray vs et st x = st := by
  intro st x hd
  simp only [edgeDist] at hd
  by_cases hv : x.2.v1 ≥ vs.length ∨ x.2.v2 ≥ vs.length
  · simp only [RayIntersection.edgeScanStep]
    rw [if_pos hv]
  · rw [if_neg hv] at hd
    by_cases hh : (RayIntersection.intersectEdge ray
        (vs.getD x.2.v1 {position := Vector3.zero}).position
        (vs.getD x.2.v2 {position := Vector3.zero}).position et (x.1 : ℤ)).hit
    · rw [if_pos hh] at hd
      cases hd
    · simp only [RayIntersection.edgeScanStep]
      rw [if_neg hv, if_neg (by intro hc; exact hh hc.1)]

theorem edgeScan_ge (ray : Ray) (vs : List Vertex) (et : ℝ) :
    ∀ (st : ℝ × RaycastResult) (x : ℕ × Edge) (d : ℝ),
      edgeDist ray vs et x = some d → ¬ d < st.1 →
      RayIntersection.edgeScanStep ray vs et st x = st := by
  intro st x d hd hge
  simp only [edgeDist] at hd
  by_cases hv : x.2.v1 ≥ vs.length ∨ x.2.v2 ≥ vs.length
  · rw [if_pos hv] at hd
    cases hd
  · rw [if_neg hv] at hd
    by_cases hh : (RayIntersection.intersectEdge ray
        (vs.getD x.2.v1 {position := Vector3.zero}).position
        (vs.getD x.2.v2 {position := Vector3.zero}).position et (x.1 : ℤ)).hit
    · rw [if_pos hh] at hd
      injection hd with hd
      simp only [RayIntersection.edgeScanStep]
      rw [if_neg hv, if_neg (by intro hc; rw [hd] at hc; exact hge hc.2)]
    · rw [if_neg hh] at hd
      cases hd

theorem faceScan_up (ray : Ray) (vs : List Vertex) :
    ∀ (st : ℝ × RaycastResult) (x : ℕ × Face) (d : ℝ),
      faceDist ray vs x = some d → d < st.1 →
      (RayIntersection.faceScanStep ray vs st x).1 = d ∧
      (RayIntersection.faceScanStep ray vs st x).2.type = RaycastResultType.FACE ∧
      (RayIntersection.faceScanStep ray vs st x).2.distance = d := by
  intro st x d hd hlt
  simp only [faceDist] at hd
  by_cases hv : x.2.v1 ≥ vs.length ∨ x.2.v2 ≥ vs.length ∨ x.2.v3 ≥ vs.length
  · rw [if_pos hv] at hd
    cases hd
  · rw [if_neg hv] at hd
    by_cases hh : (RayIntersection.intersectTriangle ray
        (vs.getD x.2.v1 {position := Vector3.zero}).position
        (vs.getD x.2.v2 {position := Vector3.zero}).position
        (vs.getD x.2.v3 {position := Vector3.zero}).position).hit
    · rw [if_pos hh] at hd
      injection hd with hd
      simp only [RayIntersection.faceScanStep]
      rw [if_neg hv, if_pos ⟨hh, by rw [hd]; exact hlt⟩]
      exact ⟨hd, rfl, hd⟩
    · rw [if_neg hh] at hd
      cases hd

theorem faceScan_none (ray : Ray) (vs : List Vertex) :
    ∀ (st : ℝ × RaycastResult) (x : ℕ × Face),
      faceDist ray vs x = none → RayIntersection.faceScanStep ray vs st x = st := by
  intro st x hd
  simp only [faceDist] at hd
  by_cases hv : x.2.v1 ≥ vs.length ∨ x.2.v2 ≥ vs.length ∨ x.2.v3 ≥ vs.length
  · simp only [RayIntersection.faceScanStep]
    rw [if_pos hv]
  · rw [if_neg hv] at hd
    by_cases hh : (RayIntersection.intersectTriangle ray
        (vs.getD x.2.v1 {position := Vector3.zero}).position
        (vs.getD x.2.v2 {position := Vector3.zero}).position
        (vs.getD x.2.v3 {position := Vector3.zero}).position).hit
    · rw [if_pos hh] at hd
      cases hd
    · simp only [RayIntersection.faceScanStep]
      rw [if_neg hv, if_neg (by intro hc; exact hh hc.1)]

theorem faceScan_ge (ray : Ray) (vs : List Vertex) :
    ∀ (st : ℝ × RaycastResult) (x : ℕ × Face) (d : ℝ),
      faceDist ray vs x = some d → ¬ d < st.1 →
      RayIntersection.faceScanStep ray vs st x = st := by
  intro st x d hd hge
  simp only [faceDist] at hd
  by_cases hv : x.2.v1 ≥ vs.length ∨ x.2.v2 ≥ vs.length ∨ x.2.v3 ≥ vs.length
  · rw [if_pos hv] at hd
    cases hd
  · rw [if_neg hv] at hd
    by_cases hh : (RayIntersection.intersectTriangle ray
        (vs.getD x.2.v1 {position := Vector3.zero}).position
        (vs.getD x.2.v2 {position := Vector3.zero}).position
        (vs.getD x.2.v3 {position := Vector3.zero}).position).hit
    · rw [if_pos hh] at hd
      injection hd with hd
      simp only [RayIntersection.faceScanStep]
      rw [if_neg hv, if_neg (by intro hc; rw [hd] at hc; exact hge hc.2)]
    · rw [if_neg hh] at hd
      cases hd

theorem not_mem_of_lt_bound {r q : ℝ} {L : List ℝ} (hlt : r < q)
    (hbd : ∀ d ∈ L, q ≤ d) : r ∉ L := by
  intro hm
  exact absurd (hbd r hm) (not_le.mpr hlt)

/-- C2: findClosestIntersection returns the hit with the globally smallest
ray parameter among vertex, edge and face hits (all assumed below the
float-max sentinel), and at exactly equal smallest parameter the resulting
category is the earliest scanned one: vertex beats edge beats face. -/
theorem C2_findClosestIntersection_nearest (ray : Ray) (m : Model)
    (vt et : ℝ) (H : ∀ d ∈ allHitDistances ray m vt et, d < FLOAT_MAX) :
    (allHitDistances ray m vt et = [] →
      RayIntersection.findClosestIntersection ray m vt et = {}) ∧
    (allHitDistances ray m vt et ≠ [] →
      (RayIntersection.findClosestIntersection ray m vt et).distance ∈
          allHitDistances ray m vt et ∧
      (∀ d ∈ allHitDistances ray m vt et,
        (RayIntersection.findClosestIntersection ray m vt et).distance ≤ d) ∧
      ((RayIntersection.findClosestIntersection ray m vt et).type =
          RaycastResultType.VERTEX ↔
        (RayIntersection.findClosestIntersection ray m vt et).distance ∈
          vertexHitDistances ray m vt) ∧
      ((RayIntersection.findClosestIntersection ray m vt et).type =
          RaycastResultType.EDGE ↔
        ((RayIntersection.findClosestIntersection ray m vt et).distance ∉
            vertexHitDistances ray m vt ∧
         (RayIntersection.findClosestIntersection ray m vt et).distance ∈
            edgeHitDistances ray m et)) ∧
      ((RayIntersection.findClosestIntersection ray m vt et).type =
          RaycastResultType.FACE ↔
        ((RayIntersection.findClosestIntersection ray m vt et).distance ∉
            vertexHitDistances ray m vt ∧
         (RayIntersection.findClosestIntersection ray m vt et).distance ∉
            edgeHitDistances ray m et))) := by
  have HV : ∀ d ∈ vertexHitDistances ray m vt, d < FLOAT_MAX := by
    intro d hd
    exact H d (by simp [allHitDistances, List.mem_append, hd])
  have HE : ∀ d ∈ edgeHitDistances ray m et, d < FLOAT_MAX := by
    intro d hd
    exact H d (by simp [allHitDistances, List.mem_append, hd])
  have hmemall : ∀ d : ℝ, d ∈ allHitDistances ray m vt et ↔
      (d ∈ vertexHitDistances ray m vt ∨ d ∈ edgeHitDistances ray m et ∨
       d ∈ faceHitDistances ray m) := by
    intro d
    simp [allHitDistances, List.mem_append]
  have hV := scanFold_spec (RayIntersection.vertexScanStep ray vt)
    (vertexDist ray vt) RaycastResultType.VERTEX
    (vertexScan_up ray vt) (vertexScan_none ray vt) (vertexScan_ge ray vt)
    m.vertices.enum (FLOAT_MAX, {})
  set st1 := m.vertices.enum.foldl (RayIntersection.vertexScanStep ray vt)
    (FLOAT_MAX, {}) with hst1
  have hE := scanFold_spec (RayIntersection.edgeScanStep ray m.vertices et)
    (edgeDist ray m.vertices et) RaycastResultType.EDGE
    (edgeScan_up ray m.vertices et) (edgeScan_none ray m.vertices et)
    (edgeScan_ge ray m.vertices et) m.edges.enum st1
  set st2 := m.edges.enum.foldl
    (RayIntersection.edgeScanStep ray m.vertices et) st1 with hst2
  have hF := scanFold_spec (RayIntersection.faceScanStep ray m.vertices)
    (faceDist ray m.vertices) RaycastResultType.FACE
    (faceScan_up ray m.vertices) (faceScan_none ray m.vertices)
    (faceScan_ge ray m.vertices) m.faces.enum st2
  set st3 := m.faces.enum.foldl (RayIntersection.faceScanStep ray m.vertices) st2
    with hst3
  have hres : RayIntersection.findClosestIntersection ray m vt et = st3.2 := rfl
  have hvD : vertexHitDistances ray m vt
      = m.vertices.enum.filterMap (vertexDist ray vt) := rfl
  have heD : edgeHitDistances ray m et
      = m.edges.enum.filterMap (edgeDist ray m.vertices et) := rfl
  have hfD : faceHitDistances ray m
      = m.faces.enum.filterMap (faceDist ray m.vertices) := rfl
  rw [← hvD] at hV
  rw [← heD] at hE
  rw [← hfD] at hF
  rw [hres]
  have hfstInit : ((FLOAT_MAX, ({} : RaycastResult)) : ℝ × RaycastResult).1
      = FLOAT_MAX := rfl
  rcases hV with ⟨hVeq, hVbd⟩ | ⟨hVmem, hVlt, hVbd, hVty, hVds⟩
  · -- vertex scan made no update: together with H there are no vertex hits
    have hvnil : vertexHitDistances ray m vt = [] := by
      rw [List.eq_nil_iff_forall_not_mem]
      intro d hd
      exact absurd (hVbd d hd) (not_le.mpr (HV d hd))
    rw [hVeq] at hE
    rcases hE with ⟨hEeq, hEbd⟩ | ⟨hEmem, hElt, hEbd, hEty, hEds⟩
    · -- edge scan made no update either: no edge hits
      have henil : edgeHitDistances ray m et = [] := by
        rw [List.eq_nil_iff_forall_not_mem]
        intro d hd
        exact absurd (hEbd d hd) (not_le.mpr (HE d hd))
      rw [hEeq] at hF
      rcases hF with ⟨hFeq, hFbd⟩ | ⟨hFmem, hFlt, hFbd, hFty, hFds⟩
      · -- nothing hit anywhere
        constructor
        · intro _
          rw [hFeq]
        · intro hne
          have hfnil : faceHitDistances ray m = [] := by
            rw [List.eq_nil_iff_forall_not_mem]
            intro d hd
            have hlt := H d ((hmemall d).mpr (Or.inr (Or.inr hd)))
            exact absurd (hFbd d hd) (not_le.mpr hlt)
          have hall : allHitDistances ray m vt et = [] := by
            unfold allHitDistances
            rw [hvnil, henil, hfnil]
            rfl
          exact absurd hall hne
      · -- only a face hit
        refine ⟨fun hnil => ?_, fun _ => ?_⟩
        · rw [List.eq_nil_iff_forall_not_mem] at hnil
          exact absurd ((hmemall _).mpr (Or.inr (Or.inr hFmem))) (hnil _)
        · refine ⟨?_, ?_, ?_, ?_, ?_⟩
          · rw [hFds]
            exact (hmemall _).mpr (Or.inr (Or.inr hFmem))
          · intro d hd
            rw [hFds]
            rcases (hmemall d).mp hd with hd | hd | hd
            · rw [hvnil] at hd
              cases hd
            · rw [henil] at hd
              cases hd
            · exact hFbd d hd
          · rw [hFty, hFds, hvnil]
            simp
          · rw [hFty, hFds, hvnil, henil]
            simp
          · rw [hFty, hFds, hvnil, henil]
            simp
    · -- edge hit, no vertex hit
      rcases hF with ⟨hFeq, hFbd⟩ | ⟨hFmem, hFlt, hFbd, hFty, hFds⟩
      · -- edge hit stands
        have hFin : st3.2 = st2.2 := by rw [hFeq]
        refine ⟨fun hnil => ?_, fun _ => ?_⟩
        · rw [List.eq_nil_iff_forall_not_mem] at hnil
          exact absurd ((hmemall _).mpr (Or.inr (Or.inl hEmem))) (hnil _)
        · rw [hFin, hEds]
          refine ⟨?_, ?_, ?_, ?_, ?_⟩
          · exact (hmemall _).mpr (Or.inr (Or.inl hEmem))
          · intro d hd
            rcases (hmemall d).mp hd with hd | hd | hd
            · rw [hvnil] at hd
              cases hd
            · exact hEbd d hd
            · exact hFbd d hd
          · rw [hEty, hvnil]
            simp
          · rw [hEty, hvnil]
            simp [hEmem]
          · rw [hEty]
            simp [hEmem]
      · -- face hit beats the edge hit
        refine ⟨fun hnil => ?_, fun _ => ?_⟩
        · rw [List.eq_nil_iff_forall_not_mem] at hnil
          exact absurd ((hmemall _).mpr (Or.inr (Or.inr hFmem))) (hnil _)
        · rw [hFds]
          refine ⟨?_, ?_, ?_, ?_, ?_⟩
          · exact (hmemall _).mpr (Or.inr (Or.inr hFmem))
          · intro d hd
            rcases (hmemall d).mp hd with hd | hd | hd
            · rw [hvnil] at hd
              cases hd
            · exact le_of_lt (lt_of_lt_of_le hFlt (hEbd d hd))
            · exact hFbd d hd
          · rw [hFty, hvnil]
            simp
          · rw [hFty, hvnil]
            simp [not_mem_of_lt_bound hFlt hEbd]
          · rw [hFty, hvnil]
            simp [not_mem_of_lt_bound hFlt hEbd]
  · -- vertex hit found
    rcases hE with ⟨hEeq, hEbd⟩ | ⟨hEmem, hElt, hEbd, hEty, hEds⟩
    · -- no edge update: edge hits all at or above the vertex winner
      rw [hEeq] at hF
      rcases hF with ⟨hFeq, hFbd⟩ | ⟨hFmem, hFlt, hFbd, hFty, hFds⟩
      · -- vertex hit stands
        have hFin : st3.2 = st1.2 := by rw [hFeq]
        refine ⟨fun hnil => ?_, fun _ => ?_⟩
        · rw [List.eq_nil_iff_forall_not_mem] at hnil
          exact absurd ((hmemall _).mpr (Or.inl hVmem)) (hnil _)
        · rw [hFin, hVds]
          refine ⟨?_, ?_, ?_, ?_, ?_⟩
          · exact (hmemall _).mpr (Or.inl hVmem)
          · intro d hd
            rcases (hmemall d).mp hd with hd | hd | hd
            · exact hVbd d hd
            · exact hEbd d hd
            · exact hFbd d hd
          · rw [hVty]
            simp [hVmem]
          · rw [hVty]
            simp [hVmem]
          · rw [hVty]
            simp [hVmem]
      · -- face hit beats the vertex hit
        refine ⟨fun hnil => ?_, fun _ => ?_⟩
        · rw [List.eq_nil_iff_forall_not_mem] at hnil
          exact absurd ((hmemall _).mpr (Or.inr (Or.inr hFmem))) (hnil _)
        · rw [hFds]
          refine ⟨?_, ?_, ?_, ?_, ?_⟩
          · exact (hmemall _).mpr (Or.inr (Or.inr hFmem))
          · intro d hd
            rcases (hmemall d).mp hd with hd | hd | hd
            · exact le_of_lt (lt_of_lt_of_le hFlt (hVbd d hd))
            · exact le_of_lt (lt_of_lt_of_le hFlt (hEbd d hd))
            · exact hFbd d hd
          · rw [hFty]
            simp [not_mem_of_lt_bound hFlt hVbd]
          · rw [hFty]
            simp [not_mem_of_lt_bound hFlt hEbd]
          · rw [hFty]
            simp [not_mem_of_lt_bound hFlt hVbd, not_mem_of_lt_bound hFlt hEbd]
    · -- edge hit beats the vertex hit
      rcases hF with ⟨hFeq, hFbd⟩ | ⟨hFmem, hFlt, hFbd, hFty, hFds⟩
      · -- edge hit stands
        have hFin : st3.2 = st2.2 := by rw [hFeq]
        refine ⟨fun hnil => ?_, fun _ => ?_⟩
        · rw [List.eq_nil_iff_forall_not_mem] at hnil
          exact absurd ((hmemall _).mpr (Or.inr (Or.inl hEmem))) (hnil _)
        · rw [hFin, hEds]
          refine ⟨?_, ?_, ?_, ?_, ?_⟩
          · exact (hmemall _).mpr (Or.inr (Or.inl hEmem))
          · intro d hd
            rcases (hmemall d).mp hd with hd | hd | hd
            · exact le_of_lt (lt_of_lt_of_le hElt (hVbd d hd))
            · exact hEbd d hd
            · exact hFbd d hd
          · rw [hEty]
            simp [not_mem_of_lt_bound hElt hVbd]
          · rw [hEty]
            simp [not_mem_of_lt_bound hElt hVbd, hEmem]
          · rw [hEty]
            simp [hEmem]
      · -- face hit beats both earlier hits
        refine ⟨fun hnil => ?_, fun _ => ?_⟩
        · rw [List.eq_nil_iff_forall_not_mem] at hnil
          exact absurd ((hmemall _).mpr (Or.inr (Or.inr hFmem))) (hnil _)
        · rw [hFds]
          refine ⟨?_, ?_, ?_, ?_, ?_⟩
          · exact (hmemall _).mpr (Or.inr (Or.inr hFmem))
          · intro d hd
            rcases (hmemall d).mp hd with hd | hd | hd
            · exact le_of_lt (lt_of_lt_of_le (hFlt.trans hElt) (hVbd d hd))
            · exact le_of_lt (lt_of_lt_of_le hFlt (hEbd d hd))
            · exact hFbd d hd
          · rw [hFty]
            simp [not_mem_of_lt_bound (hFlt.trans hElt) hVbd]
          · rw [hFty]
            simp [not_mem_of_lt_bound hFlt hEbd]
          · rw [hFty]
            simp [not_mem_of_lt_bound (hFlt.trans hElt) hVbd,
              not_mem_of_lt_bound hFlt hEbd]

/-- One-vertex model used to witness C2: a single vertex at (0,2,0) on the
pick ray, no edges, no faces. -/
def c2Model : Model := ⟨[⟨⟨0,2,0⟩, ⟨0,0,1⟩⟩], [], [], -1⟩

theorem rayPointDistance_c2 :
    RayIntersection.rayPointDistance ⟨⟨0,0,0⟩, ⟨0,1,0⟩⟩ ⟨0,2,0⟩ = (0, 2) := by
  simp only [RayIntersection.rayPointDistance, Vector3.sub_def, Vector3.add_def,
    Vector3.smul, Vector3.dot]
  norm_num
  rw [Vector3.length_eval _ 0 le_rfl (by norm_num)]

theorem c2_allHitDistances :
    allHitDistances ⟨⟨0,0,0⟩, ⟨0,1,0⟩⟩ c2Model 0.5 0.5 = [2] := by
  have hvd : vertexDist ⟨⟨0,0,0⟩, ⟨0,1,0⟩⟩ 0.5
      ((0 : ℕ), (⟨⟨0,2,0⟩, ⟨0,0,1⟩⟩ : Vertex)) = some 2 := by
    simp only [vertexDist, RayIntersection.intersectVertex, rayPointDistance_c2]
    norm_num
  have henum : c2Model.vertices.enum = [(0, ⟨⟨0,2,0⟩, ⟨0,0,1⟩⟩)] := rfl
  unfold allHitDistances vertexHitDistances edgeHitDistances faceHitDistances
  rw [henum]
  rw [show c2Model.edges = ([] : List Edge) from rfl,
    show c2Model.faces = ([] : List Face) from rfl]
  simp [List.filterMap_cons, hvd]

/-- Witness for C2: the concrete one-vertex model, where the single hit at
ray parameter 2 is returned as a vertex result with the globally smallest
distance. -/
theorem C2_findClosestIntersection_nearest_witness :
    (∀ d ∈ allHitDistances ⟨⟨0,0,0⟩, ⟨0,1,0⟩⟩ c2Model 0.5 0.5, d < FLOAT_MAX) ∧
    (RayIntersection.findClosestIntersection ⟨⟨0,0,0⟩, ⟨0,1,0⟩⟩ c2Model 0.5 0.5).distance ∈
      allHitDistances ⟨⟨0,0,0⟩, ⟨0,1,0⟩⟩ c2Model 0.5 0.5 ∧
    ((RayIntersection.findClosestIntersection ⟨⟨0,0,0⟩, ⟨0,1,0⟩⟩ c2Model 0.5 0.5).type =
        RaycastResultType.VERTEX ↔
      (RayIntersection.findClosestIntersection ⟨⟨0,0,0⟩, ⟨0,1,0⟩⟩ c2Model 0.5 0.5).distance ∈
        vertexHitDistances ⟨⟨0,0,0⟩, ⟨0,1,0⟩⟩ c2Model 0.5) := by
  have hH : ∀ d ∈ allHitDistances ⟨⟨0,0,0⟩, ⟨0,1,0⟩⟩ c2Model 0.5 0.5, d < FLOAT_MAX := by
    rw [c2_allHitDistances]
    intro d hd
    rw [List.mem_singleton] at hd
    rw [hd]
    norm_num [FLOAT_MAX]
  have hmain := (C2_findClosestIntersection_nearest ⟨⟨0,0,0⟩, ⟨0,1,0⟩⟩ c2Model
    0.5 0.5 hH).2 (by rw [c2_allHitDistances]; simp)
  exact ⟨hH, hmain.1, hmain.2.2.1⟩

/-! ### C8: castRay recursion is bounded by maxReflectionDepth -/

theorem castRay_at_max (s : SoftwareRenderer) (ray : Ray) (depth : ℤ)
    (h : s.reflectionConfig.maxReflectionDepth ≤ depth) :
    SoftwareRenderer.castRay s ray depth = SoftwareRenderer.calculateSkyboxColor s ray := by
  rw [SoftwareRenderer.castRay]
  exact dif_pos h

theorem castRayGas_agrees (s : SoftwareRenderer) :
    ∀ (gas : ℕ) (r : Ray) (depth : ℤ),
      (s.reflectionConfig.maxReflectionDepth - depth).toNat ≤ gas →
      SoftwareRenderer.castRayGas s r gas depth =
        some (SoftwareRenderer.castRay s r depth) := by
  intro gas
  induction gas with
  | zero =>
    intro r depth hg
    have hle : s.reflectionConfig.maxReflectionDepth ≤ depth := by omega
    rw [SoftwareRenderer.castRayGas, if_pos hle, castRay_at_max s r depth hle]
  | succ g ih =>
    intro r depth hg
    by_cases hd : depth ≥ s.reflectionConfig.maxReflectionDepth
    · rw [SoftwareRenderer.castRayGas, if_pos hd, castRay_at_max s r depth hd]
    · have hrec : ∀ r2 : Ray,
          (SoftwareRenderer.castRayGas s r2 g (depth + 1)).getD Vector3.zero
            = SoftwareRenderer.castRay s r2 (depth + 1) := by
        intro r2
        rw [ih r2 (depth + 1) (by omega)]
        rfl
      rw [SoftwareRenderer.castRayGas, if_neg hd]
      conv_rhs => rw [SoftwareRenderer.castRay]
      rw [dif_neg hd]
      simp only [hrec]

/-- C8: castRay is total and its recursion is bounded by maxReflectionDepth:
any call at depth at or beyond the limit performs no recursion and returns
the skybox color, and the gas-counting variant needs only
(maxReflectionDepth - depth) units of gas to agree with castRay, so the
recursion never descends more than maxReflectionDepth levels. -/
theorem C8_castRay_terminates (s : SoftwareRenderer) (ray : Ray) (depth : ℤ) :
    (s.reflectionConfig.maxReflectionDepth ≤ depth →
      SoftwareRenderer.castRay s ray depth =
        SoftwareRenderer.calculateSkyboxColor s ray) ∧
    (∀ gas : ℕ, (s.reflectionConfig.maxReflectionDepth - depth).toNat ≤ gas →
      SoftwareRenderer.castRayGas s ray gas depth =
        some (SoftwareRenderer.castRay s ray depth)) := by
  exact ⟨castRay_at_max s ray depth, fun gas hg => castRayGas_agrees s gas ray depth hg⟩

/-- Concrete scene used to witness C8: empty lists and the default
configuration with maxReflectionDepth 5. -/
def c8Scene : SoftwareRenderer :=
  { triangles := [], lines := [], vertices := [], edges := [] }

/-- Witness for C8: at depth 5, equal to the default maxReflectionDepth, the
cast returns the skybox color and zero units of gas suffice. -/
theorem C8_castRay_terminates_witness :
    SoftwareRenderer.castRay c8Scene ⟨⟨0,0,0⟩, ⟨0,1,0⟩⟩ 5 =
      SoftwareRenderer.calculateSkyboxColor c8Scene ⟨⟨0,0,0⟩, ⟨0,1,0⟩⟩ ∧
    SoftwareRenderer.castRayGas c8Scene ⟨⟨0,0,0⟩, ⟨0,1,0⟩⟩ 0 5 =
      some (SoftwareRenderer.castRay c8Scene ⟨⟨0,0,0⟩, ⟨0,1,0⟩⟩ 5) := by
  have h5 : c8Scene.reflectionConfig.maxReflectionDepth = 5 := rfl
  constructor
  · exact (C8_castRay_terminates c8Scene ⟨⟨0,0,0⟩, ⟨0,1,0⟩⟩ 5).1 (by rw [h5])
  · exact (C8_castRay_terminates c8Scene ⟨⟨0,0,0⟩, ⟨0,1,0⟩⟩ 5).2 0 (by rw [h5]; simp)

end Dream
